import Mathlib

/-!
# TriceraPost web front ends: a shallow embedding

The repository holds three browser hosts of one control surface:

* `src/web/app.js` and `src/web/settings.js` (plain page),
* `src/gui/web/settings.js` (page served under a path prefix),
* `src/synology/ui/tricerapost.js` (ExtJS widget).

Every handler is embedded as a pure function on an explicit record of the
JavaScript `state` object and of the part of the page it reads and writes.
What the network answers is an argument of the handler; what the handler sends
is appended to a request log kept in the page record.

Conventions of the embedding

* JavaScript numbers that count pages and items are natural numbers (array
  lengths are below `2^32`, where the float division and `Math.ceil` are exact).
  The page number is at least 1 in every state the code can reach; at page 0
  (never written by the code) `p - 1` would be negative in JavaScript.
* An `await` suspends the handler; the embedding runs each handler from its
  event to its end without interleaving another event.
* A page element looked up with `qs(id)` and guarded by the code
  (`if (!x) return`, `if (x) ...`) is an `Option`; an element the code
  dereferences without a guard is a plain field (it exists).
-/

namespace TriceraPost

/-! ## JavaScript values and errors -/

/-- A JSON field value as the handlers look at it. Numbers are integers and
arrays hold strings (the shapes the HTTP contract lists). -/
inductive JsVal where
  | undefined
  | null
  | bool (b : Bool)
  | num (n : Int)
  | str (s : String)
  | arr (xs : List String)
  deriving DecidableEq, Repr

namespace JsVal

/-- Truthiness in the sense of `if (v)`, `v || w`, `Boolean(v)`, `v ? a : b`. -/
def truthy : JsVal → Bool
  | undefined => false
  | null => false
  | bool b => b
  | num n => n != 0
  | str s => s != ""
  | arr _ => true

/-- Result of `Array.prototype.join(sep)` on an array of strings. -/
def join (sep : String) (xs : List String) : String :=
  sep.intercalate xs

/-- String conversion, as a template literal or a DOM text setter performs it. -/
def toStr : JsVal → String
  | undefined => "undefined"
  | null => "null"
  | bool b => if b then "true" else "false"
  | num n => toString n
  | str s => s
  | arr xs => join "," xs

/-- The expression `a || b`. -/
def or (a b : JsVal) : JsVal :=
  if a.truthy then a else b

/-- The expression `a ?? b`. -/
def nullish (a b : JsVal) : JsVal :=
  match a with
  | undefined => b
  | null => b
  | v => v

end JsVal

/-- A thrown value: `new Error(message)` raised by `fetchJson`, the `TypeError`
of a rejected `fetch`, or the `SyntaxError` of `res.json()`. -/
inductive JsError where
  | error (message : String)
  | typeError (message : String)
  | syntaxError (message : String)
  deriving DecidableEq, Repr

/-- The property `err.message`. -/
def JsError.message : JsError → String
  | .error m => m
  | .typeError m => m
  | .syntaxError m => m

/-- A `Response`: `ok`, `status`, the body as `res.text()` yields it and the
outcome of `res.json()` (the parsed body, or the message of the parse error). -/
structure Response (α : Type) where
  ok : Bool
  status : Nat
  text : String
  json : Except String α

/-- What `await fetch(url, options)` yields: a rejection or a response. -/
abbrev Net (α : Type) := Except JsError (Response α)

/-- Body of a request, kept structured instead of serialised. -/
structure Payload where
  NNTP_HOST : String
  NNTP_PORT : String
  NNTP_SSL : Bool
  NNTP_USER : String
  NNTP_LOOKBACK : String
  NNTP_GROUPS : String
  TRICERAPOST_SCHEDULER_INTERVAL : Option String := none
  TRICERAPOST_SAVE_NZBS : Option Bool := none
  TRICERAPOST_NZB_DIR : Option String := none
  clear_password : Bool
  NNTP_PASS : Option String := none
  deriving DecidableEq, Repr

/-- The JSON bodies the handlers send. -/
inductive Body where
  | settings (p : Payload)
  | confirmTrue
  deriving DecidableEq, Repr

/-- One HTTP request as issued by `fetch` or `Ext.Ajax.request`. -/
structure Request where
  method : String
  url : String
  headers : List (String × String) := []
  body : Option Body := none
  deriving DecidableEq, Repr

/-- The header set every JSON POST of the hosts carries. -/
def jsonHeaders : List (String × String) :=
  [("Content-Type", "application/json")]

/-- Source `fetchJson` (`web/app.js` 18-25, `web/settings.js` 5-12,
`gui/web/settings.js` 13-20), applied to what `fetch` yielded. -/
def fetchJson {α : Type} (net : Net α) : Except JsError α :=
  match net with
  | .error e => .error e
  | .ok res =>
    if !res.ok then
      .error (.error (if res.text != "" then res.text
                      else "Request failed: " ++ toString res.status))
    else
      match res.json with
      | .ok v => .ok v
      | .error m => .error (.syntaxError m)

/-- Splitting a path at every slash, as `pathname.split("/")` does. -/
def splitSlashAux : List Char → List Char → List String
  | [], cur => [String.mk cur.reverse]
  | c :: cs, cur =>
    if c = '/' then String.mk cur.reverse :: splitSlashAux cs []
    else splitSlashAux cs (c :: cur)

/-- Source `basePath` (`web/app.js` 10-16, `gui/web/settings.js` 5-11) for a given
`window.location.pathname`. -/
def basePath (pathname : String) : String :=
  let parts := splitSlashAux pathname.data []
  if parts.length > 1 && parts[1]? == some "tricerapost" then "/tricerapost" else ""

/-! ## `web/app.js`: the two paginated collections -/

/-- An item of `GET /api/releases`. -/
structure Release where
  name : JsVal := .undefined
  filename_guess : JsVal := .undefined
  size_human : JsVal := .undefined
  parts_received : JsVal := .undefined
  parts_expected : JsVal := .undefined
  type : JsVal := .undefined
  quality : JsVal := .undefined
  source : JsVal := .undefined
  codec : JsVal := .undefined
  audio : JsVal := .undefined
  subtitles : JsVal := .undefined
  languages : JsVal := .undefined
  groups : JsVal := .undefined
  nzb_created : JsVal := .undefined
  deriving DecidableEq, Repr

/-- An item of `GET /api/nzbs`; `bytes` is absent or an integer. -/
structure Nzb where
  name : JsVal := .undefined
  source : JsVal := .undefined
  bytes : Option Int := none
  group : JsVal := .undefined
  key : JsVal := .undefined
  deriving DecidableEq, Repr

/-- The module-level `state` object (`web/app.js` 1-8). -/
structure State where
  releases : List Release := []
  nzbs : List Nzb := []
  releasePage : Nat := 1
  nzbPage : Nat := 1
  releasePageSize : Nat := 20
  nzbPageSize : Nat := 20
  deriving DecidableEq, Repr

/-- The card `renderReleases` appends for one item. -/
structure ReleaseCard where
  nzbCreated : Bool
  title : String
  badges : List String
  groupLine : String
  statusLine : String
  deriving DecidableEq, Repr

/-- The card `renderNzbs` appends for one item. -/
structure NzbCard where
  title : String
  badges : List String
  groupLine : String
  href : String
  linkText : String
  deriving DecidableEq, Repr

/-- The part of the index page `web/app.js` touches. An element the code guards
is `none` when the page lacks it; a button holds its `disabled` flag.
`requests` logs what `fetch` was asked to send and `prompts` the confirmation
dialogs shown (`web/app.js` opens none). -/
structure Page where
  pathname : String := "/"
  releaseList : Option (List ReleaseCard) := some []
  releaseStatus : Option String := some ""
  releaseInfo : Option String := some ""
  releasePrev : Option Bool := some false
  releaseNext : Option Bool := some false
  nzbList : Option (List NzbCard) := some []
  nzbStatus : Option String := some ""
  nzbInfo : Option String := some ""
  nzbPrev : Option Bool := some false
  nzbNext : Option Bool := some false
  saveAllBtn : Bool := true
  saveAllStatus : Option String := some ""
  requests : List Request := []
  prompts : List String := []
  deriving DecidableEq, Repr

/-- Source `formatMeta` (`web/app.js` 31-41); each pushed value is given as the text
its badge shows. -/
def formatMeta (item : Release) : List String :=
  (if item.type.truthy && item.type != .str "unknown" then [item.type.toStr] else [])
  ++ (if item.quality.truthy then [item.quality.toStr] else [])
  ++ (if item.source.truthy then [item.source.toStr] else [])
  ++ (if item.codec.truthy then [item.codec.toStr] else [])
  ++ (if item.audio.truthy then [item.audio.toStr] else [])
  ++ (if item.subtitles.truthy then ["subs"] else [])
  ++ (match item.languages with
      | .arr xs => if xs.length != 0 then [JsVal.join ", " xs] else []
      | _ => [])

/-- The value of `Math.ceil(total / pageSize)` for a positive page size. -/
def ceilDiv (total pageSize : Nat) : Nat :=
  (total + pageSize - 1) / pageSize

/-- The local `totalPages` of both pagination renderers (`web/app.js` 49, 63). -/
def totalPages (total pageSize : Nat) : Nat :=
  max (ceilDiv total pageSize) 1

/-- The template literal of `web/app.js` 52 and 66. -/
def pageInfo (page total : Nat) : String :=
  "Page " ++ toString page ++ " of " ++ toString total

/-- The value of `list.slice(start, stop)` for non-negative integer bounds. -/
def jsSlice {α : Type} (list : List α) (start stop : Nat) : List α :=
  (list.take stop).drop start

/-- Source `renderReleasePagination` (`web/app.js` 43-55). -/
def renderReleasePagination (s : State) (d : Page) (total : Nat) : State × Page :=
  if d.releaseInfo.isNone || d.releasePrev.isNone || d.releaseNext.isNone then (s, d)
  else
    let tp := totalPages total s.releasePageSize
    let s1 := { s with releasePage := min s.releasePage tp }
    (s1, { d with
            releaseInfo := some (pageInfo s1.releasePage tp)
            releasePrev := some (decide (s1.releasePage ≤ 1))
            releaseNext := some (decide (s1.releasePage ≥ tp)) })

/-- Source `renderNzbPagination` (`web/app.js` 57-69). -/
def renderNzbPagination (s : State) (d : Page) (total : Nat) : State × Page :=
  if d.nzbInfo.isNone || d.nzbPrev.isNone || d.nzbNext.isNone then (s, d)
  else
    let tp := totalPages total s.nzbPageSize
    let s1 := { s with nzbPage := min s.nzbPage tp }
    (s1, { d with
            nzbInfo := some (pageInfo s1.nzbPage tp)
            nzbPrev := some (decide (s1.nzbPage ≤ 1))
            nzbNext := some (decide (s1.nzbPage ≥ tp)) })

/-- The card built by the loop body of `renderReleases` (`web/app.js` 89-128). -/
def releaseCard (item : Release) : ReleaseCard :=
  let groups := match item.groups with
    | .arr xs => JsVal.join ", " xs
    | _ => ""
  { nzbCreated := item.nzb_created.truthy
    title := ((item.filename_guess.or item.name).or (.str "(untitled)")).toStr
    badges :=
      [(item.size_human.or (.str "size ?")).toStr,
       item.parts_received.toStr ++ "/" ++ (item.parts_expected.or (.str "?")).toStr]
      ++ formatMeta item
    groupLine := if groups != "" then "Groups: " ++ groups else ""
    statusLine := if item.nzb_created.truthy then "NZB created" else "NZB pending" }

/-- Source `renderReleases` (`web/app.js` 71-129). -/
def renderReleases (s : State) (d : Page) (list : List Release) : State × Page :=
  if d.releaseList.isNone || d.releaseStatus.isNone then (s, d)
  else
    let d1 := { d with releaseList := some [] }
    if list.length = 0 then
      renderReleasePagination s { d1 with releaseStatus := some "No complete releases yet." } 0
    else
      let d2 := { d1 with
        releaseStatus := some (toString list.length ++ " releases found.") }
      let r := renderReleasePagination s d2 list.length
      let start := (r.1.releasePage - 1) * r.1.releasePageSize
      let pageItems := jsSlice list start (start + r.1.releasePageSize)
      (r.1, { r.2 with releaseList := some (pageItems.map releaseCard) })

/-- The text of `x.toFixed(1)` for `x = bytes / (1024 * 1024)` with `bytes` an integer:
the quotient is exact in floating point, and the nearest tenth is taken with
ties going up in magnitude. -/
def mibToFixed1 (bytes : Int) : String :=
  let tenths := (bytes.natAbs * 20 + 1048576) / 2097152
  (if bytes < 0 then "-" else "") ++ toString (tenths / 10) ++ "." ++ toString (tenths % 10)

/-- The bytes of the UTF-8 encoding of a code point. -/
def utf8Bytes (n : Nat) : List Nat :=
  if n < 128 then [n]
  else if n < 2048 then [192 + n / 64, 128 + n % 64]
  else if n < 65536 then [224 + n / 4096, 128 + n / 64 % 64, 128 + n % 64]
  else [240 + n / 262144, 128 + n / 4096 % 64, 128 + n / 64 % 64, 128 + n % 64]

/-- An upper-case hexadecimal digit. -/
def hexDigit (d : Nat) : Char :=
  if d < 10 then Char.ofNat (48 + d) else Char.ofNat (55 + d)

/-- The characters `encodeURIComponent` leaves as they are. -/
def uriUnreserved (c : Char) : Bool :=
  c.isAlphanum || "-_.!~*()".data.contains c || c.toNat == 39

/-- The function `encodeURIComponent` on a well-formed string. -/
def encodeURIComponent (s : String) : String :=
  String.mk (s.data.flatMap fun c =>
    if uriUnreserved c then [c]
    else (utf8Bytes c.toNat).flatMap fun b => ['%', hexDigit (b / 16), hexDigit (b % 16)])

/-- The card built by the loop body of `renderNzbs` (`web/app.js` 149-182). -/
def nzbCard (pathname : String) (item : Nzb) : NzbCard :=
  { title := (item.name.or (.str "(untitled)")).toStr
    badges :=
      [(item.source.or (.str "unknown")).toStr,
       match item.bytes with
       | some b => if b != 0 then mibToFixed1 b ++ " MB" else "size ?"
       | none => "size ?"]
    groupLine := if item.group.truthy then "Group: " ++ item.group.toStr else ""
    href := basePath pathname ++ "/api/nzb/file?key=" ++ encodeURIComponent item.key.toStr
    linkText := "Download NZB" }

/-- Source `renderNzbs` (`web/app.js` 131-183). -/
def renderNzbs (s : State) (d : Page) (list : List Nzb) : State × Page :=
  if d.nzbList.isNone || d.nzbStatus.isNone then (s, d)
  else
    let d1 := { d with nzbList := some [] }
    if list.length = 0 then
      renderNzbPagination s { d1 with nzbStatus := some "No NZBs yet." } 0
    else
      let d2 := { d1 with nzbStatus := some (toString list.length ++ " NZBs ready.") }
      let r := renderNzbPagination s d2 list.length
      let start := (r.1.nzbPage - 1) * r.1.nzbPageSize
      let pageItems := jsSlice list start (start + r.1.nzbPageSize)
      (r.1, { r.2 with nzbList := some (pageItems.map (nzbCard d.pathname)) })

/-- Appending a request to the log of the index page. -/
def Page.send (d : Page) (r : Request) : Page :=
  { d with requests := d.requests ++ [r] }

/-- Source `loadReleases` (`web/app.js` 185-194), given the answer to its request. -/
def loadReleases (s : State) (d : Page) (net : Net (List Release)) : State × Page :=
  let d1 := d.send { method := "GET", url := basePath d.pathname ++ "/api/releases" }
  match fetchJson net with
  | .ok list => renderReleases { s with releases := list } d1 list
  | .error err =>
    (s, { d1 with
           releaseStatus := d1.releaseStatus.map fun _ =>
             "Failed to load releases: " ++ err.message })

/-- Source `loadNzbs` (`web/app.js` 196-205), given the answer to its request. -/
def loadNzbs (s : State) (d : Page) (net : Net (List Nzb)) : State × Page :=
  let d1 := d.send { method := "GET", url := basePath d.pathname ++ "/api/nzbs" }
  match fetchJson net with
  | .ok list => renderNzbs { s with nzbs := list } d1 list
  | .error err =>
    (s, { d1 with
           nzbStatus := d1.nzbStatus.map fun _ => "Failed to load NZBs: " ++ err.message })

/-- Click listener of `release-prev` (`web/app.js` 211-214). -/
def releasePrevClick (s : State) (d : Page) : State × Page :=
  let s1 := { s with releasePage := max 1 (s.releasePage - 1) }
  renderReleases s1 d s1.releases

/-- Click listener of `release-next` (`web/app.js` 217-220). -/
def releaseNextClick (s : State) (d : Page) : State × Page :=
  let s1 := { s with releasePage := s.releasePage + 1 }
  renderReleases s1 d s1.releases

/-- Click listener of `nzb-prev` (`web/app.js` 226-229). -/
def nzbPrevClick (s : State) (d : Page) : State × Page :=
  let s1 := { s with nzbPage := max 1 (s.nzbPage - 1) }
  renderNzbs s1 d s1.nzbs

/-- Click listener of `nzb-next` (`web/app.js` 232-235). -/
def nzbNextClick (s : State) (d : Page) : State × Page :=
  let s1 := { s with nzbPage := s.nzbPage + 1 }
  renderNzbs s1 d s1.nzbs

/-- The body of `POST /api/nzb/save_all`. -/
structure SaveAllResult where
  saved : JsVal := .undefined
  deriving DecidableEq, Repr

/-- Click listener of `save-all-nzbs` (`web/app.js` 240-251): `post` answers the
bulk request, `reload` answers the `loadNzbs` that follows a success. -/
def saveAllNzbsClick (s : State) (d : Page) (post : Net SaveAllResult)
    (reload : Net (List Nzb)) : State × Page :=
  let d1 := { d with saveAllStatus := d.saveAllStatus.map fun _ => "Saving..." }
  let d2 := d1.send { method := "POST", url := basePath d.pathname ++ "/api/nzb/save_all" }
  match fetchJson post with
  | .ok result =>
    let d3 := { d2 with
      saveAllStatus := d2.saveAllStatus.map fun _ =>
        "Saved " ++ (result.saved.or (.num 0)).toStr ++ " NZBs." }
    loadNzbs s d3 reload
  | .error err =>
    (s, { d2 with
           saveAllStatus := d2.saveAllStatus.map fun _ => "Save failed: " ++ err.message })

/-- What can happen on the index page once `initPage` has run: the answer to a
load arrives, or a control is clicked. -/
inductive Event where
  | releasesLoaded (net : Net (List Release))
  | nzbsLoaded (net : Net (List Nzb))
  | releasePrev
  | releaseNext
  | nzbPrev
  | nzbNext
  | saveAll (post : Net SaveAllResult) (reload : Net (List Nzb))

/-- One event: `initPage` (`web/app.js` 207-256) registers a listener only on a
control the page has, so a click on a missing control does nothing. -/
def step (sd : State × Page) : Event → State × Page
  | .releasesLoaded net => loadReleases sd.1 sd.2 net
  | .nzbsLoaded net => loadNzbs sd.1 sd.2 net
  | .releasePrev => if sd.2.releasePrev.isSome then releasePrevClick sd.1 sd.2 else sd
  | .releaseNext => if sd.2.releaseNext.isSome then releaseNextClick sd.1 sd.2 else sd
  | .nzbPrev => if sd.2.nzbPrev.isSome then nzbPrevClick sd.1 sd.2 else sd
  | .nzbNext => if sd.2.nzbNext.isSome then nzbNextClick sd.1 sd.2 else sd
  | .saveAll post reload =>
    if sd.2.saveAllBtn then saveAllNzbsClick sd.1 sd.2 post reload else sd

/-- A finite sequence of events, in order. -/
def run (sd : State × Page) (evs : List Event) : State × Page :=
  evs.foldl step sd

/-- The `state` object as the module creates it, for given page sizes (20 and
20 in the source). -/
def initState (releasePageSize nzbPageSize : Nat) : State :=
  { releases := [], nzbs := [], releasePage := 1, nzbPage := 1,
    releasePageSize := releasePageSize, nzbPageSize := nzbPageSize }

/-- The index page has the list, the status line and the three pagination
elements of the releases. -/
def Page.releaseReady (d : Page) : Prop :=
  d.releaseList.isSome ∧ d.releaseStatus.isSome ∧ d.releaseInfo.isSome ∧
  d.releasePrev.isSome ∧ d.releaseNext.isSome

/-- The index page has the list, the status line and the three pagination
elements of the NZBs. -/
def Page.nzbReady (d : Page) : Prop :=
  d.nzbList.isSome ∧ d.nzbStatus.isSome ∧ d.nzbInfo.isSome ∧
  d.nzbPrev.isSome ∧ d.nzbNext.isSome

/-- The index page has the elements of both collections. -/
def Page.complete (d : Page) : Prop :=
  d.releaseReady ∧ d.nzbReady

instance (d : Page) : Decidable d.releaseReady := by
  unfold Page.releaseReady; infer_instance

instance (d : Page) : Decidable d.nzbReady := by
  unfold Page.nzbReady; infer_instance

instance (d : Page) : Decidable d.complete := by
  unfold Page.complete; infer_instance

/-- After this event `renderReleases` runs: a load that succeeded, or a click
on one of the two release controls. -/
def Event.rendersReleases : Event → Bool
  | .releasesLoaded net =>
    match fetchJson net with
    | .ok _ => true
    | .error _ => false
  | .releasePrev => true
  | .releaseNext => true
  | _ => false

/-- After this event `renderNzbs` runs: a load that succeeded, or a click on one
of the two NZB controls. -/
def Event.rendersNzbs : Event → Bool
  | .nzbsLoaded net =>
    match fetchJson net with
    | .ok _ => true
    | .error _ => false
  | .nzbPrev => true
  | .nzbNext => true
  | _ => false

/-! ## `web/settings.js` and `gui/web/settings.js`: the settings page -/

/-- The record `GET /api/settings` returns; an absent key is `undefined`. -/
structure Settings where
  NNTP_HOST : JsVal := .undefined
  NNTP_PORT : JsVal := .undefined
  NNTP_SSL : JsVal := .undefined
  NNTP_USER : JsVal := .undefined
  NNTP_LOOKBACK : JsVal := .undefined
  NNTP_GROUPS : JsVal := .undefined
  NNTP_PASS_SET : JsVal := .undefined
  TRICERAPOST_SCHEDULER_INTERVAL : JsVal := .undefined
  TRICERAPOST_SAVE_NZBS : JsVal := .undefined
  TRICERAPOST_NZB_DIR : JsVal := .undefined
  deriving DecidableEq, Repr

/-- Text and colour of the `save-status` element. -/
structure StatusLine where
  text : String := ""
  color : String := ""
  deriving DecidableEq, Repr

/-- The settings page of the two fetch-based hosts, with the requests sent and
the `window.confirm` dialogs shown. The fields from `schedulerInterval` on
belong to the prefixed page; the handlers of the plain page never touch them. -/
structure SettingsPage where
  nntpHost : String := ""
  nntpPort : String := ""
  nntpSsl : Bool := false
  nntpUser : String := ""
  nntpLookback : String := ""
  nntpGroups : String := ""
  nntpPass : String := ""
  nntpPassClear : Bool := false
  nntpPassStatus : Option String := some ""
  saveStatus : Option StatusLine := some {}
  requests : List Request := []
  schedulerInterval : String := ""
  nzbSave : Bool := false
  nzbDir : String := ""
  pathname : String := "/"
  prompts : List String := []
  deriving DecidableEq, Repr

/-- Code points `String.prototype.trim` strips (white space and line ends). -/
def jsWhiteSpace (c : Char) : Bool :=
  let n := c.toNat
  (9 ≤ n && n ≤ 13) || n == 32 || n == 160 || n == 5760 || (8192 ≤ n && n ≤ 8202) ||
  n == 8232 || n == 8233 || n == 8239 || n == 8287 || n == 12288 || n == 65279

/-- The function `String.prototype.trim`. -/
def jsTrim (s : String) : String :=
  String.mk ((s.data.dropWhile jsWhiteSpace).reverse.dropWhile jsWhiteSpace).reverse

/-- Appending a request to the log of the settings page. -/
def SettingsPage.send (f : SettingsPage) (r : Request) : SettingsPage :=
  { f with requests := f.requests ++ [r] }

/-- Source `setStatus` (`web/settings.js` 14-19, `gui/web/settings.js` 22-27). -/
def setStatus (f : SettingsPage) (message : String) (isError : Bool := false) : SettingsPage :=
  { f with
    saveStatus := f.saveStatus.map fun _ =>
      { text := message, color := if isError then "#8e2c0a" else "" } }

/-- The label written to `nntp-pass-status` (and to `NNTP_PASS_STATUS` in the
widget). -/
def passLabel (settings : Settings) : String :=
  if settings.NNTP_PASS_SET.truthy then "Password stored" else "No password stored"

namespace Web

/-- Source `loadSettings` (`web/settings.js` 21-38), given the answer to its request. -/
def loadSettings (f : SettingsPage) (net : Net Settings) : SettingsPage :=
  let f1 := f.send { method := "GET", url := "/api/settings" }
  match fetchJson net with
  | .ok settings =>
    { f1 with
      nntpHost := (settings.NNTP_HOST.or (.str "")).toStr
      nntpPort := (settings.NNTP_PORT.or (.str "")).toStr
      nntpSsl := settings.NNTP_SSL.truthy
      nntpUser := (settings.NNTP_USER.or (.str "")).toStr
      nntpLookback := (settings.NNTP_LOOKBACK.or (.str "")).toStr
      nntpGroups := (settings.NNTP_GROUPS.or (.str "")).toStr
      nntpPassStatus := f1.nntpPassStatus.map fun _ => passLabel settings }
  | .error err => setStatus f1 ("Failed to load settings: " ++ err.message) true

/-- The `payload` object of the submit listener (`web/settings.js` 48-61). -/
def payload (f : SettingsPage) : Payload :=
  { NNTP_HOST := jsTrim f.nntpHost
    NNTP_PORT := f.nntpPort
    NNTP_SSL := f.nntpSsl
    NNTP_USER := jsTrim f.nntpUser
    NNTP_LOOKBACK := f.nntpLookback
    NNTP_GROUPS := jsTrim f.nntpGroups
    clear_password := f.nntpPassClear
    NNTP_PASS := if f.nntpPass != "" then some f.nntpPass else none }

/-- The request the submit listener sends (`web/settings.js` 64-68). -/
def submitRequest (f : SettingsPage) : Request :=
  { method := "POST", url := "/api/settings", headers := jsonHeaders,
    body := some (.settings (payload f)) }

/-- Submit listener of `settings-form` (`web/settings.js` 44-76): `post` answers
the update, `reload` answers the `loadSettings` that follows a success. -/
def submit (f : SettingsPage) (post : Net Unit) (reload : Net Settings) : SettingsPage :=
  let f1 := setStatus f "Saving..."
  let f2 := f1.send (submitRequest f1)
  match fetchJson post with
  | .ok _ =>
    let f3 := { f2 with nntpPass := "", nntpPassClear := false }
    loadSettings (setStatus f3 "Settings saved.") reload
  | .error err => setStatus f2 ("Save failed: " ++ err.message) true

end Web

namespace Gui

/-- Source `loadSettings` (`gui/web/settings.js` 29-50), given the answer to its
request. -/
def loadSettings (f : SettingsPage) (net : Net Settings) : SettingsPage :=
  let f1 := f.send { method := "GET", url := basePath f.pathname ++ "/api/settings" }
  match fetchJson net with
  | .ok settings =>
    { f1 with
      nntpHost := (settings.NNTP_HOST.or (.str "")).toStr
      nntpPort := (settings.NNTP_PORT.or (.str "")).toStr
      nntpSsl := settings.NNTP_SSL.truthy
      nntpUser := (settings.NNTP_USER.or (.str "")).toStr
      nntpLookback := (settings.NNTP_LOOKBACK.or (.str "")).toStr
      nntpGroups := (settings.NNTP_GROUPS.or (.str "")).toStr
      schedulerInterval := (settings.TRICERAPOST_SCHEDULER_INTERVAL.nullish (.str "")).toStr
      nzbSave := settings.TRICERAPOST_SAVE_NZBS != .bool false
      nzbDir := (settings.TRICERAPOST_NZB_DIR.or (.str "")).toStr
      nntpPassStatus := f1.nntpPassStatus.map fun _ => passLabel settings }
  | .error err => setStatus f1 ("Failed to load settings: " ++ err.message) true

/-- The `payload` object of the submit listener (`gui/web/settings.js` 60-76). -/
def payload (f : SettingsPage) : Payload :=
  { NNTP_HOST := jsTrim f.nntpHost
    NNTP_PORT := f.nntpPort
    NNTP_SSL := f.nntpSsl
    NNTP_USER := jsTrim f.nntpUser
    NNTP_LOOKBACK := f.nntpLookback
    NNTP_GROUPS := jsTrim f.nntpGroups
    TRICERAPOST_SCHEDULER_INTERVAL := some f.schedulerInterval
    TRICERAPOST_SAVE_NZBS := some f.nzbSave
    TRICERAPOST_NZB_DIR := some (jsTrim f.nzbDir)
    clear_password := f.nntpPassClear
    NNTP_PASS := if f.nntpPass != "" then some f.nntpPass else none }

/-- The request the submit listener sends (`gui/web/settings.js` 79-84). -/
def submitRequest (f : SettingsPage) : Request :=
  { method := "POST", url := basePath f.pathname ++ "/api/settings", headers := jsonHeaders,
    body := some (.settings (payload f)) }

/-- Submit listener of `settings-form` (`gui/web/settings.js` 56-92). -/
def submit (f : SettingsPage) (post : Net Unit) (reload : Net Settings) : SettingsPage :=
  let f1 := setStatus f "Saving..."
  let f2 := f1.send (submitRequest f1)
  match fetchJson post with
  | .ok _ =>
    let f3 := { f2 with nntpPass := "", nntpPassClear := false }
    loadSettings (setStatus f3 "Settings saved.") reload
  | .error err => setStatus f2 ("Save failed: " ++ err.message) true

/-- The question `window.confirm` asks before the database is cleared. -/
def clearPrompt : String :=
  "Clear all SQLite data and reset scans? This cannot be undone."

/-- Click listener of `clear-db` (`gui/web/settings.js` 96-112): `answer` is what
`window.confirm` returns, `net` answers the request if one is sent. -/
def clearDbClick (f : SettingsPage) (answer : Bool) (net : Net Unit) : SettingsPage :=
  let f0 := { f with prompts := f.prompts ++ [clearPrompt] }
  if !answer then f0
  else
    let f1 := setStatus f0 "Clearing database..."
    let f2 := f1.send
      { method := "POST", url := basePath f.pathname ++ "/api/admin/clear_db",
        headers := jsonHeaders, body := some .confirmTrue }
    match fetchJson net with
    | .ok _ => setStatus f2 "Database cleared."
    | .error err => setStatus f2 ("Clear failed: " ++ err.message) true

end Gui

/-! ## `synology/ui/tricerapost.js`: the ExtJS widget -/

namespace Syno

/-- Source `SYNO.PKG.TriceraPost.getBaseUrl` (`tricerapost.js` 3-5). -/
def getBaseUrl : String := "/tricerapost"

/-- The fields of the form of `SettingsPanel` (`tricerapost.js` 160-173), by
name, with the request log and the confirmation boxes shown. -/
structure SettingsForm where
  NNTP_HOST : String := ""
  NNTP_PORT : String := ""
  NNTP_SSL : Bool := false
  NNTP_USER : String := ""
  NNTP_PASS : String := ""
  NNTP_PASS_STATUS : String := "Unknown"
  CLEAR_PASS : Bool := false
  NNTP_LOOKBACK : String := ""
  NNTP_GROUPS : String := ""
  TRICERAPOST_SAVE_NZBS : Bool := false
  TRICERAPOST_NZB_DIR : String := ""
  SAVE_STATUS : String := ""
  requests : List Request := []
  prompts : List String := []
  deriving DecidableEq, Repr

/-- Appending a request to the log of the widget form. -/
def SettingsForm.send (f : SettingsForm) (r : Request) : SettingsForm :=
  { f with requests := f.requests ++ [r] }

/-- Dispatch of `Ext.Ajax.request`: it runs `success` on a response with a success status and
`failure` otherwise (also when no response arrives). -/
def succeeded {α : Type} (net : Net α) : Option (Response α) :=
  match net with
  | .ok res => if res.ok then some res else none
  | .error _ => none

/-- Source `SettingsPanel.loadSettings` (`tricerapost.js` 210-237). When `Ext.decode`
throws, the `success` callback ends there and the form is as it was. -/
def loadSettings (f : SettingsForm) (net : Net Settings) : SettingsForm :=
  let f1 := f.send { method := "GET", url := getBaseUrl ++ "/api/settings" }
  match succeeded net with
  | some resp =>
    match resp.json with
    | .ok data =>
      { f1 with
        NNTP_HOST := (data.NNTP_HOST.or (.str "")).toStr
        NNTP_PORT := (data.NNTP_PORT.or (.str "")).toStr
        NNTP_SSL := data.NNTP_SSL.truthy
        NNTP_USER := (data.NNTP_USER.or (.str "")).toStr
        NNTP_LOOKBACK := (data.NNTP_LOOKBACK.or (.str "")).toStr
        NNTP_GROUPS := (data.NNTP_GROUPS.or (.str "")).toStr
        TRICERAPOST_SAVE_NZBS := data.TRICERAPOST_SAVE_NZBS != .bool false
        TRICERAPOST_NZB_DIR := (data.TRICERAPOST_NZB_DIR.or (.str "")).toStr
        NNTP_PASS_STATUS := passLabel data
        SAVE_STATUS := ""
        NNTP_PASS := ""
        CLEAR_PASS := false }
    | .error _ => f1
  | none => { f1 with SAVE_STATUS := "Failed to load settings." }

/-- The `payload` object of `saveSettings` (`tricerapost.js` 242-255); a form
value is a string, so `v || ""` is `v`. -/
def payload (f : SettingsForm) : Payload :=
  { NNTP_HOST := f.NNTP_HOST
    NNTP_PORT := f.NNTP_PORT
    NNTP_SSL := f.NNTP_SSL
    NNTP_USER := f.NNTP_USER
    NNTP_LOOKBACK := f.NNTP_LOOKBACK
    NNTP_GROUPS := f.NNTP_GROUPS
    TRICERAPOST_SAVE_NZBS := some f.TRICERAPOST_SAVE_NZBS
    TRICERAPOST_NZB_DIR := some f.TRICERAPOST_NZB_DIR
    clear_password := f.CLEAR_PASS
    NNTP_PASS := if f.NNTP_PASS != "" then some f.NNTP_PASS else none }

/-- The request `saveSettings` sends (`tricerapost.js` 258-263). -/
def saveRequest (f : SettingsForm) : Request :=
  { method := "POST", url := getBaseUrl ++ "/api/settings", headers := jsonHeaders,
    body := some (.settings (payload f)) }

/-- Source `SettingsPanel.saveSettings` (`tricerapost.js` 239-272): `post` answers the
update, `reload` answers the `loadSettings` of the `success` callback. -/
def saveSettings (f : SettingsForm) (post : Net Unit) (reload : Net Settings) : SettingsForm :=
  let req := saveRequest f
  let f1 := { f with SAVE_STATUS := "Saving..." }
  let f2 := f1.send req
  match succeeded post with
  | some _ => loadSettings { f2 with SAVE_STATUS := "Settings saved." } reload
  | none => { f2 with SAVE_STATUS := "Save failed." }

/-- The question `Ext.Msg.confirm` asks in `clearDatabase`. -/
def clearPrompt : String :=
  "Clear all SQLite data and reset scans? This cannot be undone."

/-- Source `SettingsPanel.clearDatabase` (`tricerapost.js` 274-296): `btn` is the
button id the confirmation box reports, `net` answers the request if sent. -/
def clearDatabase (f : SettingsForm) (btn : String) (net : Net Unit) : SettingsForm :=
  let f0 := { f with prompts := f.prompts ++ [clearPrompt] }
  if btn != "yes" then f0
  else
    let f1 := f0.send
      { method := "POST", url := getBaseUrl ++ "/api/admin/clear_db",
        headers := jsonHeaders, body := some .confirmTrue }
    match succeeded net with
    | some _ => { f1 with SAVE_STATUS := "Database cleared." }
    | none => { f1 with SAVE_STATUS := "Clear failed." }

/-- The data handed to the template of `StatusPanel`. -/
structure StatusData where
  groups_scanned : JsVal := .undefined
  posts_scanned : JsVal := .undefined
  sets_found : JsVal := .undefined
  sets_rejected : JsVal := .undefined
  nzbs_found : JsVal := .undefined
  nzbs_generated : JsVal := .undefined
  updated_at : JsVal := .undefined
  deriving DecidableEq, Repr

/-- The status panel: the data its body was last rendered from, the text of the
mask over it, the requests sent and the confirmation boxes shown. -/
structure StatusPanel where
  body : Option StatusData := none
  mask : Option String := none
  requests : List Request := []
  prompts : List String := []
  deriving DecidableEq, Repr

/-- Source `StatusPanel.refreshStatus` (`tricerapost.js` 93-120); `now` is the text of
`new Date().toLocaleString()`. -/
def refreshStatus (p : StatusPanel) (net : Net StatusData) (now : String) : StatusPanel :=
  let p1 := { p with
    requests := p.requests ++
      [({ method := "GET", url := getBaseUrl ++ "/api/status" } : Request)] }
  match succeeded net with
  | some resp =>
    let data : StatusData := match resp.json with
      | .ok d => d
      | .error _ => {}
    { p1 with body := some { data with updated_at := .str now } }
  | none =>
    { p1 with
      body := some
        { groups_scanned := .str "-", posts_scanned := .str "-", sets_found := .str "-",
          sets_rejected := .str "-", nzbs_found := .str "-", nzbs_generated := .str "-",
          updated_at := .str "Failed to fetch status" } }

/-- Source `StatusPanel.saveAllNzbs` (`tricerapost.js` 122-147): `post` answers the bulk
request, `status` answers the `refreshStatus` of the `success` callback. The
mask is the one put up; it is taken down 1200 ms later. -/
def saveAllNzbs (p : StatusPanel) (post : Net SaveAllResult) (status : Net StatusData)
    (now : String) : StatusPanel :=
  let p1 := { p with
    requests := p.requests ++
      [({ method := "POST", url := getBaseUrl ++ "/api/nzb/save_all" } : Request)] }
  match succeeded post with
  | some resp =>
    let data : SaveAllResult := match resp.json with
      | .ok d => d
      | .error _ => { saved := .num 0 }
    let p2 := refreshStatus p1 status now
    { p2 with mask := some ("Saved " ++ (data.saved.or (.num 0)).toStr ++ " NZBs.") }
  | none => { p1 with mask := some "Save failed." }

end Syno

/-- What holds of the index page between two events. -/
def Inv (rps nps : Nat) (sd : State × Page) : Prop :=
  sd.2.complete ∧ sd.1.releasePageSize = rps ∧ sd.1.nzbPageSize = nps ∧
  1 ≤ sd.1.releasePage ∧ sd.1.releasePage ≤ totalPages sd.1.releases.length rps ∧
  1 ≤ sd.1.nzbPage ∧ sd.1.nzbPage ≤ totalPages sd.1.nzbs.length nps

/-- The `pageItems` of `renderReleases` (`web/app.js` 86-87) and of `renderNzbs`
(`web/app.js` 146-147) when the current page is `page`. -/
def pageSlice {α : Type} (list : List α) (pageSize page : Nat) : List α :=
  jsSlice list ((page - 1) * pageSize) ((page - 1) * pageSize + pageSize)

/-- A release named after its index. -/
def sampleRelease (i : Nat) : Release :=
  { name := .str ("release " ++ toString i), parts_received := .num 3, parts_expected := .num 3 }

/-- Forty-five releases, indexed 0 to 44. -/
def sampleReleases : List Release :=
  (List.range 45).map sampleRelease

/-- A response with status 200 whose body parses to `v`. -/
def okResponse {α : Type} (v : α) : Net α :=
  .ok { ok := true, status := 200, text := "", json := .ok v }

/-- A response with the given failure status and body. -/
def failResponse {α : Type} (status : Nat) (text : String) : Net α :=
  .ok { ok := false, status := status, text := text, json := .error "Unexpected token" }

/-! ## Pagination: arithmetic -/

theorem ceilDiv_mul_ge (n p : Nat) (hp : 0 < p) : n ≤ ceilDiv n p * p := by
  unfold ceilDiv
  have h := Nat.lt_succ_iff.mpr (le_refl ((n + p - 1) / p))
  rw [Nat.div_lt_iff_lt_mul hp] at h
  rw [Nat.succ_mul] at h
  omega

theorem ceilDiv_le_of_le_mul (n p c : Nat) (hp : 0 < p) (h : n ≤ c * p) : ceilDiv n p ≤ c := by
  unfold ceilDiv
  apply Nat.lt_succ_iff.mp
  rw [Nat.div_lt_iff_lt_mul hp, Nat.succ_mul]
  omega

/-- The integer formula of `ceilDiv` is the ceiling of the rational quotient. -/
theorem ceilDiv_eq_ceil (n p : Nat) (hp : 0 < p) : ceilDiv n p = ⌈(n : ℚ) / (p : ℚ)⌉₊ := by
  have hp' : (0 : ℚ) < (p : ℚ) := by exact_mod_cast hp
  apply le_antisymm
  · apply ceilDiv_le_of_le_mul n p _ hp
    have h := Nat.le_ceil ((n : ℚ) / (p : ℚ))
    rw [div_le_iff₀ hp'] at h
    exact_mod_cast h
  · rw [Nat.ceil_le, div_le_iff₀ hp']
    exact_mod_cast ceilDiv_mul_ge n p hp

theorem totalPages_eq_ceil (n p : Nat) (hp : 0 < p) :
    totalPages n p = max 1 ⌈(n : ℚ) / (p : ℚ)⌉₊ := by
  unfold totalPages
  rw [ceilDiv_eq_ceil n p hp, max_comm]

theorem totalPages_pos (n p : Nat) : 1 ≤ totalPages n p := by
  unfold totalPages
  exact le_max_right _ _

theorem totalPages_zero (p : Nat) (hp : 0 < p) : totalPages 0 p = 1 := by
  unfold totalPages ceilDiv
  have : (0 + p - 1) / p = 0 := Nat.div_eq_of_lt (by omega)
  rw [this]
  rfl

/-! ## Pagination: what one render does -/

theorem isNone_of_isSome {α : Type} {o : Option α} (h : o.isSome) : o.isNone = false := by
  cases o <;> simp_all

theorem renderReleasePagination_eq (s : State) (d : Page) (total : Nat)
    (h1 : d.releaseInfo.isSome) (h2 : d.releasePrev.isSome) (h3 : d.releaseNext.isSome) :
    renderReleasePagination s d total =
      ({ s with releasePage := min s.releasePage (totalPages total s.releasePageSize) },
       { d with
          releaseInfo := some (pageInfo (min s.releasePage (totalPages total s.releasePageSize))
            (totalPages total s.releasePageSize))
          releasePrev := some (decide (min s.releasePage (totalPages total s.releasePageSize) ≤ 1))
          releaseNext := some (decide (min s.releasePage (totalPages total s.releasePageSize)
            ≥ totalPages total s.releasePageSize)) }) := by
  simp [renderReleasePagination, isNone_of_isSome h1, isNone_of_isSome h2, isNone_of_isSome h3]

theorem renderNzbPagination_eq (s : State) (d : Page) (total : Nat)
    (h1 : d.nzbInfo.isSome) (h2 : d.nzbPrev.isSome) (h3 : d.nzbNext.isSome) :
    renderNzbPagination s d total =
      ({ s with nzbPage := min s.nzbPage (totalPages total s.nzbPageSize) },
       { d with
          nzbInfo := some (pageInfo (min s.nzbPage (totalPages total s.nzbPageSize))
            (totalPages total s.nzbPageSize))
          nzbPrev := some (decide (min s.nzbPage (totalPages total s.nzbPageSize) ≤ 1))
          nzbNext := some (decide (min s.nzbPage (totalPages total s.nzbPageSize)
            ≥ totalPages total s.nzbPageSize)) }) := by
  simp [renderNzbPagination, isNone_of_isSome h1, isNone_of_isSome h2, isNone_of_isSome h3]

theorem jsSlice_nil {α : Type} (a b : Nat) : jsSlice ([] : List α) a b = [] := by
  simp [jsSlice]

/-- With every release element on the page, `renderReleases` clamps the page
and rewrites the five release elements; nothing else changes. -/
theorem renderReleases_eq (s : State) (d : Page) (list : List Release)
    (hc : d.releaseReady) :
    renderReleases s d list =
      ({ s with releasePage := min s.releasePage (totalPages list.length s.releasePageSize) },
       { d with
          releaseList := some ((jsSlice list
            ((min s.releasePage (totalPages list.length s.releasePageSize) - 1)
              * s.releasePageSize)
            ((min s.releasePage (totalPages list.length s.releasePageSize) - 1)
              * s.releasePageSize + s.releasePageSize)).map releaseCard)
          releaseStatus := some (if list.length = 0 then "No complete releases yet."
            else toString list.length ++ " releases found.")
          releaseInfo := some (pageInfo
            (min s.releasePage (totalPages list.length s.releasePageSize))
            (totalPages list.length s.releasePageSize))
          releasePrev := some (decide
            (min s.releasePage (totalPages list.length s.releasePageSize) ≤ 1))
          releaseNext := some (decide
            (min s.releasePage (totalPages list.length s.releasePageSize)
              ≥ totalPages list.length s.releasePageSize)) }) := by
  obtain ⟨h1, h2, h3, h4, h5⟩ := hc
  unfold renderReleases
  simp only [isNone_of_isSome h1, isNone_of_isSome h2, Bool.or_self, Bool.false_eq_true,
    if_false]
  by_cases hl : list.length = 0
  · have hnil : list = [] := List.length_eq_zero.mp hl
    subst hnil
    simp only [List.length_nil, if_true]
    rw [renderReleasePagination_eq s
      { d with releaseList := some [], releaseStatus := some "No complete releases yet." } 0
      h3 h4 h5]
    simp [jsSlice_nil]
  · simp only [hl, if_false]
    rw [renderReleasePagination_eq s
      { d with releaseList := some []
               releaseStatus := some (toString list.length ++ " releases found.") }
      list.length h3 h4 h5]

/-- With every NZB element on the page, `renderNzbs` clamps the page and
rewrites the five NZB elements; nothing else changes. -/
theorem renderNzbs_eq (s : State) (d : Page) (list : List Nzb) (hc : d.nzbReady) :
    renderNzbs s d list =
      ({ s with nzbPage := min s.nzbPage (totalPages list.length s.nzbPageSize) },
       { d with
          nzbList := some ((jsSlice list
            ((min s.nzbPage (totalPages list.length s.nzbPageSize) - 1) * s.nzbPageSize)
            ((min s.nzbPage (totalPages list.length s.nzbPageSize) - 1) * s.nzbPageSize
              + s.nzbPageSize)).map (nzbCard d.pathname))
          nzbStatus := some (if list.length = 0 then "No NZBs yet."
            else toString list.length ++ " NZBs ready.")
          nzbInfo := some (pageInfo (min s.nzbPage (totalPages list.length s.nzbPageSize))
            (totalPages list.length s.nzbPageSize))
          nzbPrev := some (decide (min s.nzbPage (totalPages list.length s.nzbPageSize) ≤ 1))
          nzbNext := some (decide (min s.nzbPage (totalPages list.length s.nzbPageSize)
            ≥ totalPages list.length s.nzbPageSize)) }) := by
  obtain ⟨h1, h2, h3, h4, h5⟩ := hc
  unfold renderNzbs
  simp only [isNone_of_isSome h1, isNone_of_isSome h2, Bool.or_self, Bool.false_eq_true,
    if_false]
  by_cases hl : list.length = 0
  · have hnil : list = [] := List.length_eq_zero.mp hl
    subst hnil
    simp only [List.length_nil, if_true]
    rw [renderNzbPagination_eq s
      { d with nzbList := some [], nzbStatus := some "No NZBs yet." } 0 h3 h4 h5]
    simp [jsSlice_nil]
  · simp only [hl, if_false]
    rw [renderNzbPagination_eq s
      { d with nzbList := some []
               nzbStatus := some (toString list.length ++ " NZBs ready.") }
      list.length h3 h4 h5]

/-! ## Pagination: the invariant along a run -/

theorem inv_init (rps nps : Nat) (d : Page) (hd : d.complete) :
    Inv rps nps (initState rps nps, d) := by
  refine ⟨hd, rfl, rfl, le_refl _, ?_, le_refl _, ?_⟩
  · exact totalPages_pos _ _
  · exact totalPages_pos _ _

theorem inv_renderReleases (rps nps : Nat) (s : State) (d : Page) (list : List Release)
    (hd : d.complete) (hr : s.releasePageSize = rps) (hn : s.nzbPageSize = nps)
    (hp : 1 ≤ s.releasePage) (hq : 1 ≤ s.nzbPage)
    (hq2 : s.nzbPage ≤ totalPages s.nzbs.length nps) :
    Inv rps nps (renderReleases { s with releases := list } d list) := by
  rw [renderReleases_eq _ _ _ hd.1]
  have htp := totalPages_pos list.length rps
  obtain ⟨⟨h1, h2, h3, h4, h5⟩, hnz⟩ := hd
  refine ⟨⟨⟨?_, ?_, ?_, ?_, ?_⟩, hnz⟩, hr, hn, ?_, ?_, hq, hq2⟩
  · rfl
  · rfl
  · rfl
  · rfl
  · rfl
  · simp only [hr]; exact le_min hp htp
  · simp only [hr]; exact min_le_right _ _

theorem inv_renderNzbs (rps nps : Nat) (s : State) (d : Page) (list : List Nzb)
    (hd : d.complete) (hr : s.releasePageSize = rps) (hn : s.nzbPageSize = nps)
    (hp : 1 ≤ s.nzbPage) (hq : 1 ≤ s.releasePage)
    (hq2 : s.releasePage ≤ totalPages s.releases.length rps) :
    Inv rps nps (renderNzbs { s with nzbs := list } d list) := by
  rw [renderNzbs_eq _ _ _ hd.2]
  have htp := totalPages_pos list.length nps
  obtain ⟨hre, ⟨h1, h2, h3, h4, h5⟩⟩ := hd
  refine ⟨⟨hre, ⟨?_, ?_, ?_, ?_, ?_⟩⟩, hr, hn, hq, hq2, ?_, ?_⟩
  · rfl
  · rfl
  · rfl
  · rfl
  · rfl
  · simp only [hn]; exact le_min hp htp
  · simp only [hn]; exact min_le_right _ _

theorem isSome_map {α β : Type} (o : Option α) (g : α → β) : (o.map g).isSome = o.isSome := by
  cases o <;> rfl

theorem inv_loadReleases (rps nps : Nat) (s : State) (d : Page) (net : Net (List Release))
    (h : Inv rps nps (s, d)) : Inv rps nps (loadReleases s d net) := by
  obtain ⟨hd, hr, hn, hp, hp2, hq, hq2⟩ := h
  unfold loadReleases
  cases hf : fetchJson net with
  | ok list => exact inv_renderReleases rps nps s (d.send _) list hd hr hn hp hq hq2
  | error err =>
    obtain ⟨⟨h1, h2, h3, h4, h5⟩, hnz⟩ := hd
    refine ⟨⟨⟨h1, ?_, h3, h4, h5⟩, hnz⟩, hr, hn, hp, hp2, hq, hq2⟩
    simpa [Page.send, isSome_map] using h2

theorem inv_loadNzbs (rps nps : Nat) (s : State) (d : Page) (net : Net (List Nzb))
    (h : Inv rps nps (s, d)) : Inv rps nps (loadNzbs s d net) := by
  obtain ⟨hd, hr, hn, hp, hp2, hq, hq2⟩ := h
  unfold loadNzbs
  cases hf : fetchJson net with
  | ok list => exact inv_renderNzbs rps nps s (d.send _) list hd hr hn hq hp hp2
  | error err =>
    obtain ⟨hre, ⟨h1, h2, h3, h4, h5⟩⟩ := hd
    refine ⟨⟨hre, ⟨h1, ?_, h3, h4, h5⟩⟩, hr, hn, hp, hp2, hq, hq2⟩
    simpa [Page.send, isSome_map] using h2

theorem inv_saveAll (rps nps : Nat) (s : State) (d : Page) (post : Net SaveAllResult)
    (reload : Net (List Nzb)) (h : Inv rps nps (s, d)) :
    Inv rps nps (saveAllNzbsClick s d post reload) := by
  unfold saveAllNzbsClick
  cases hf : fetchJson post with
  | ok result =>
    apply inv_loadNzbs
    obtain ⟨hd, hr, hn, hp, hp2, hq, hq2⟩ := h
    exact ⟨hd, hr, hn, hp, hp2, hq, hq2⟩
  | error err =>
    obtain ⟨hd, hr, hn, hp, hp2, hq, hq2⟩ := h
    exact ⟨hd, hr, hn, hp, hp2, hq, hq2⟩

/-- Every event keeps the invariant. -/
theorem inv_step (rps nps : Nat) (sd : State × Page) (e : Event) (h : Inv rps nps sd) :
    Inv rps nps (step sd e) := by
  obtain ⟨s, d⟩ := sd
  have h0 := h
  obtain ⟨hd, hr, hn, hp, hp2, hq, hq2⟩ := h
  cases e with
  | releasesLoaded net => exact inv_loadReleases rps nps s d net h0
  | nzbsLoaded net => exact inv_loadNzbs rps nps s d net h0
  | releasePrev =>
    simp only [step]
    split
    · exact inv_renderReleases rps nps { s with releasePage := max 1 (s.releasePage - 1) } d
        s.releases hd hr hn (le_max_left _ _) hq hq2
    · exact h0
  | releaseNext =>
    simp only [step]
    split
    · exact inv_renderReleases rps nps { s with releasePage := s.releasePage + 1 } d
        s.releases hd hr hn (Nat.le_add_left _ _) hq hq2
    · exact h0
  | nzbPrev =>
    simp only [step]
    split
    · exact inv_renderNzbs rps nps { s with nzbPage := max 1 (s.nzbPage - 1) } d
        s.nzbs hd hr hn (le_max_left _ _) hp hp2
    · exact h0
  | nzbNext =>
    simp only [step]
    split
    · exact inv_renderNzbs rps nps { s with nzbPage := s.nzbPage + 1 } d
        s.nzbs hd hr hn (Nat.le_add_left _ _) hp hp2
    · exact h0
  | saveAll post reload =>
    simp only [step]
    split
    · exact inv_saveAll rps nps s d post reload h0
    · exact h0

/-- Every run keeps the invariant. -/
theorem inv_run (rps nps : Nat) (evs : List Event) (sd : State × Page) (h : Inv rps nps sd) :
    Inv rps nps (run sd evs) := by
  induction evs generalizing sd with
  | nil => exact h
  | cons e evs ih => exact ih (step sd e) (inv_step rps nps sd e h)

theorem run_append (sd : State × Page) (evs : List Event) (e : Event) :
    run sd (evs ++ [e]) = step (run sd evs) e := by
  simp [run, List.foldl_append]

theorem renderReleases_ready (s : State) (d : Page) (list : List Release)
    (hd : d.releaseReady) : (renderReleases s d list).2.releaseReady := by
  rw [renderReleases_eq s d list hd]
  exact ⟨rfl, rfl, rfl, rfl, rfl⟩

theorem renderNzbs_ready (s : State) (d : Page) (list : List Nzb)
    (hd : d.nzbReady) : (renderNzbs s d list).2.nzbReady := by
  rw [renderNzbs_eq s d list hd]
  exact ⟨rfl, rfl, rfl, rfl, rfl⟩

/-- A render overwrites all that the render before it wrote. -/
theorem renderReleases_absorb (s t : State) (d : Page) (l1 l2 : List Release)
    (hd : d.releaseReady) :
    renderReleases t (renderReleases s d l1).2 l2 = renderReleases t d l2 := by
  have hd' := renderReleases_ready s d l1 hd
  rw [renderReleases_eq t _ l2 hd', renderReleases_eq t d l2 hd, renderReleases_eq s d l1 hd]

theorem renderNzbs_absorb (s t : State) (d : Page) (l1 l2 : List Nzb)
    (hd : d.nzbReady) :
    renderNzbs t (renderNzbs s d l1).2 l2 = renderNzbs t d l2 := by
  have hd' := renderNzbs_ready s d l1 hd
  rw [renderNzbs_eq t _ l2 hd', renderNzbs_eq t d l2 hd, renderNzbs_eq s d l1 hd]

theorem releasePrevClick_at_first (s : State) (d : Page) (h : s.releasePage = 1) :
    releasePrevClick s d = renderReleases s d s.releases := by
  unfold releasePrevClick
  have : ({ s with releasePage := max 1 (s.releasePage - 1) } : State) = s := by
    cases s; simp_all
  simp only [this]

theorem releaseNextClick_at_last (s : State) (d : Page) (hd : d.releaseReady)
    (h : s.releasePage = totalPages s.releases.length s.releasePageSize) :
    releaseNextClick s d = renderReleases s d s.releases := by
  unfold releaseNextClick
  rw [renderReleases_eq _ d _ hd, renderReleases_eq s d _ hd]
  have e : min (s.releasePage + 1) (totalPages s.releases.length s.releasePageSize)
      = min s.releasePage (totalPages s.releases.length s.releasePageSize) := by
    rw [← h]; simp
  simp only [e]

theorem renderReleases_state_fixed (s : State) (d : Page) (hd : d.releaseReady)
    (h : s.releasePage ≤ totalPages s.releases.length s.releasePageSize) :
    (renderReleases s d s.releases).1 = s := by
  rw [renderReleases_eq s d _ hd]
  cases s
  simp_all

theorem nzbPrevClick_at_first (s : State) (d : Page) (h : s.nzbPage = 1) :
    nzbPrevClick s d = renderNzbs s d s.nzbs := by
  unfold nzbPrevClick
  have : ({ s with nzbPage := max 1 (s.nzbPage - 1) } : State) = s := by
    cases s; simp_all
  simp only [this]

theorem nzbNextClick_at_last (s : State) (d : Page) (hd : d.nzbReady)
    (h : s.nzbPage = totalPages s.nzbs.length s.nzbPageSize) :
    nzbNextClick s d = renderNzbs s d s.nzbs := by
  unfold nzbNextClick
  rw [renderNzbs_eq _ d _ hd, renderNzbs_eq s d _ hd]
  have e : min (s.nzbPage + 1) (totalPages s.nzbs.length s.nzbPageSize)
      = min s.nzbPage (totalPages s.nzbs.length s.nzbPageSize) := by
    rw [← h]; simp
  simp only [e]

theorem renderNzbs_state_fixed (s : State) (d : Page) (hd : d.nzbReady)
    (h : s.nzbPage ≤ totalPages s.nzbs.length s.nzbPageSize) :
    (renderNzbs s d s.nzbs).1 = s := by
  rw [renderNzbs_eq s d _ hd]
  cases s
  simp_all

/-- Repeating an event whose step is the same render each time, from a state
that render leaves alone, ends in the outcome of the first render. -/
theorem run_replicate_fixed (e : Event) (s : State) (d r : Page)
    (hfirst : step (s, d) e = (s, r)) (hnext : step (s, r) e = (s, r)) (k : Nat) :
    run (s, d) (List.replicate (k + 1) e) = (s, r) := by
  have hrep : ∀ n : Nat, run (s, r) (List.replicate n e) = (s, r) := by
    intro n
    induction n with
    | zero => rfl
    | succ n ih =>
      simp only [List.replicate_succ, run, List.foldl_cons] at ih ⊢
      rw [hnext]
      exact ih
  simp only [List.replicate_succ, run, List.foldl_cons]
  rw [hfirst]
  exact hrep k

theorem step_rendersReleases (sd : State × Page) (e : Event) (hd : sd.2.complete)
    (he : e.rendersReleases) :
    (step sd e).2.releaseInfo = some (pageInfo (step sd e).1.releasePage
      (totalPages (step sd e).1.releases.length (step sd e).1.releasePageSize)) := by
  obtain ⟨s, d⟩ := sd
  have h4 : d.releasePrev.isSome = true := hd.1.2.2.2.1
  have h5 : d.releaseNext.isSome = true := hd.1.2.2.2.2
  cases e with
  | releasesLoaded net =>
    cases hl : fetchJson net with
    | error err => simp [Event.rendersReleases, hl] at he
    | ok list =>
      simp only [step, loadReleases, hl]
      rw [renderReleases_eq _ (d.send _) list hd.1]
  | releasePrev =>
    simp only [step, h4, if_true, releasePrevClick]
    rw [renderReleases_eq _ d _ hd.1]
  | releaseNext =>
    simp only [step, h5, if_true, releaseNextClick]
    rw [renderReleases_eq _ d _ hd.1]
  | nzbsLoaded net => exact absurd he (by simp [Event.rendersReleases])
  | nzbPrev => exact absurd he (by simp [Event.rendersReleases])
  | nzbNext => exact absurd he (by simp [Event.rendersReleases])
  | saveAll post reload => exact absurd he (by simp [Event.rendersReleases])

theorem step_rendersNzbs (sd : State × Page) (e : Event) (hd : sd.2.complete)
    (he : e.rendersNzbs) :
    (step sd e).2.nzbInfo = some (pageInfo (step sd e).1.nzbPage
      (totalPages (step sd e).1.nzbs.length (step sd e).1.nzbPageSize)) := by
  obtain ⟨s, d⟩ := sd
  have h4 : d.nzbPrev.isSome = true := hd.2.2.2.2.1
  have h5 : d.nzbNext.isSome = true := hd.2.2.2.2.2
  cases e with
  | nzbsLoaded net =>
    cases hl : fetchJson net with
    | error err => simp [Event.rendersNzbs, hl] at he
    | ok list =>
      simp only [step, loadNzbs, hl]
      rw [renderNzbs_eq _ (d.send _) list hd.2]
  | nzbPrev =>
    simp only [step, h4, if_true, nzbPrevClick]
    rw [renderNzbs_eq _ d _ hd.2]
  | nzbNext =>
    simp only [step, h5, if_true, nzbNextClick]
    rw [renderNzbs_eq _ d _ hd.2]
  | saveAll post reload => exact absurd he (by simp [Event.rendersNzbs])
  | releasesLoaded net => exact absurd he (by simp [Event.rendersNzbs])
  | releasePrev => exact absurd he (by simp [Event.rendersNzbs])
  | releaseNext => exact absurd he (by simp [Event.rendersNzbs])

/-! ## Claims on pagination -/

/-- C1. From the initial state (both pages 1) and for positive page sizes, after
every non-empty finite sequence of events on a page that has the pagination
elements, the total page count of either collection is
`max(1, ceil(n / pageSize))` for the current list length `n`, the stored page
lies in `[1, totalPages]`, and when the last event rendered the collection the
indicator shows that page and that count. -/
theorem pagination_invariant (rps nps : Nat) (hr : 0 < rps) (hn : 0 < nps) (d : Page)
    (hd : d.complete) (evs : List Event) (e : Event) :
    (totalPages (run (initState rps nps, d) (evs ++ [e])).1.releases.length rps
        = max 1 ⌈((run (initState rps nps, d) (evs ++ [e])).1.releases.length : ℚ) / (rps : ℚ)⌉₊
      ∧ 1 ≤ (run (initState rps nps, d) (evs ++ [e])).1.releasePage
      ∧ (run (initState rps nps, d) (evs ++ [e])).1.releasePage
          ≤ totalPages (run (initState rps nps, d) (evs ++ [e])).1.releases.length rps
      ∧ (e.rendersReleases →
          (run (initState rps nps, d) (evs ++ [e])).2.releaseInfo
            = some (pageInfo (run (initState rps nps, d) (evs ++ [e])).1.releasePage
                (totalPages (run (initState rps nps, d) (evs ++ [e])).1.releases.length rps))))
    ∧ (totalPages (run (initState rps nps, d) (evs ++ [e])).1.nzbs.length nps
        = max 1 ⌈((run (initState rps nps, d) (evs ++ [e])).1.nzbs.length : ℚ) / (nps : ℚ)⌉₊
      ∧ 1 ≤ (run (initState rps nps, d) (evs ++ [e])).1.nzbPage
      ∧ (run (initState rps nps, d) (evs ++ [e])).1.nzbPage
          ≤ totalPages (run (initState rps nps, d) (evs ++ [e])).1.nzbs.length nps
      ∧ (e.rendersNzbs →
          (run (initState rps nps, d) (evs ++ [e])).2.nzbInfo
            = some (pageInfo (run (initState rps nps, d) (evs ++ [e])).1.nzbPage
                (totalPages (run (initState rps nps, d) (evs ++ [e])).1.nzbs.length nps)))) := by
  have hinv := inv_run rps nps (evs ++ [e]) _ (inv_init rps nps d hd)
  have hpre := inv_run rps nps evs _ (inv_init rps nps d hd)
  obtain ⟨-, hrs, hns, hp, hp2, hq, hq2⟩ := hinv
  refine ⟨⟨totalPages_eq_ceil _ _ hr, hp, hp2, ?_⟩, ⟨totalPages_eq_ceil _ _ hn, hq, hq2, ?_⟩⟩
  · intro he
    have h := step_rendersReleases _ e hpre.1 he
    rw [← run_append] at h
    rw [h, hrs]
  · intro he
    have h := step_rendersNzbs _ e hpre.1 he
    rw [← run_append] at h
    rw [h, hns]

/-- C5. At page 1 any number of 'previous' clicks, and at the last page any
number of 'next' clicks, leave the `state` object as it was and the page as one
plain re-render of that state shows it; so for both collections. -/
theorem setPage_noop_at_boundaries (s : State) (d : Page) (hd : d.complete) (k : Nat) :
    (s.releasePage = 1 →
        run (s, d) (List.replicate (k + 1) .releasePrev)
          = (s, (renderReleases s d s.releases).2))
    ∧ (s.releasePage = totalPages s.releases.length s.releasePageSize →
        run (s, d) (List.replicate (k + 1) .releaseNext)
          = (s, (renderReleases s d s.releases).2))
    ∧ (s.nzbPage = 1 →
        run (s, d) (List.replicate (k + 1) .nzbPrev) = (s, (renderNzbs s d s.nzbs).2))
    ∧ (s.nzbPage = totalPages s.nzbs.length s.nzbPageSize →
        run (s, d) (List.replicate (k + 1) .nzbNext) = (s, (renderNzbs s d s.nzbs).2)) := by
  obtain ⟨hre, hnz⟩ := hd
  have hre' := renderReleases_ready s d s.releases hre
  have hnz' := renderNzbs_ready s d s.nzbs hnz
  refine ⟨?_, ?_, ?_, ?_⟩
  · intro h
    have hle : s.releasePage ≤ totalPages s.releases.length s.releasePageSize := by
      rw [h]; exact totalPages_pos _ _
    have hR : renderReleases s d s.releases = (s, (renderReleases s d s.releases).2) :=
      Prod.ext (renderReleases_state_fixed s d hre hle) rfl
    apply run_replicate_fixed
    · simp only [step, hre.2.2.2.1, if_true]
      rw [releasePrevClick_at_first s d h]
      exact hR
    · simp only [step, hre'.2.2.2.1, if_true]
      rw [releasePrevClick_at_first s _ h, renderReleases_absorb s s d _ _ hre]
      exact hR
  · intro h
    have hR : renderReleases s d s.releases = (s, (renderReleases s d s.releases).2) :=
      Prod.ext (renderReleases_state_fixed s d hre (le_of_eq h)) rfl
    apply run_replicate_fixed
    · simp only [step, hre.2.2.2.2, if_true]
      rw [releaseNextClick_at_last s d hre h]
      exact hR
    · simp only [step, hre'.2.2.2.2, if_true]
      rw [releaseNextClick_at_last s _ hre' h, renderReleases_absorb s s d _ _ hre]
      exact hR
  · intro h
    have hle : s.nzbPage ≤ totalPages s.nzbs.length s.nzbPageSize := by
      rw [h]; exact totalPages_pos _ _
    have hR : renderNzbs s d s.nzbs = (s, (renderNzbs s d s.nzbs).2) :=
      Prod.ext (renderNzbs_state_fixed s d hnz hle) rfl
    apply run_replicate_fixed
    · simp only [step, hnz.2.2.2.1, if_true]
      rw [nzbPrevClick_at_first s d h]
      exact hR
    · simp only [step, hnz'.2.2.2.1, if_true]
      rw [nzbPrevClick_at_first s _ h, renderNzbs_absorb s s d _ _ hnz]
      exact hR
  · intro h
    have hR : renderNzbs s d s.nzbs = (s, (renderNzbs s d s.nzbs).2) :=
      Prod.ext (renderNzbs_state_fixed s d hnz (le_of_eq h)) rfl
    apply run_replicate_fixed
    · simp only [step, hnz.2.2.2.2, if_true]
      rw [nzbNextClick_at_last s d hnz h]
      exact hR
    · simp only [step, hnz'.2.2.2.2, if_true]
      rw [nzbNextClick_at_last s _ hnz' h, renderNzbs_absorb s s d _ _ hnz]
      exact hR

/-- C8. With the release elements on the page, a non-empty list, a positive page
size and a current page `p ≥ 1`, `renderReleases` stores `p' = min(p, totalPages)`
with `totalPages = max(1, ceil(n / pageSize))`, shows the cards of
`list[(p'-1)*pageSize : p'*pageSize]`, writes "Page p' of totalPages", disables
'previous' exactly when `p' ≤ 1` and 'next' exactly when `p' ≥ totalPages`. -/
theorem renderReleases_nonempty (s : State) (d : Page) (list : List Release)
    (hd : d.releaseReady) (hne : list ≠ []) (hps : 0 < s.releasePageSize)
    (hp : 1 ≤ s.releasePage) :
    totalPages list.length s.releasePageSize
        = max 1 ⌈(list.length : ℚ) / (s.releasePageSize : ℚ)⌉₊
    ∧ (renderReleases s d list).1.releasePage
        = min s.releasePage (totalPages list.length s.releasePageSize)
    ∧ (renderReleases s d list).2.releaseList
        = some (((list.take
            (min s.releasePage (totalPages list.length s.releasePageSize) * s.releasePageSize)).drop
            ((min s.releasePage (totalPages list.length s.releasePageSize) - 1)
              * s.releasePageSize)).map releaseCard)
    ∧ (renderReleases s d list).2.releaseInfo
        = some ("Page " ++ toString (min s.releasePage (totalPages list.length s.releasePageSize))
            ++ " of " ++ toString (totalPages list.length s.releasePageSize))
    ∧ (renderReleases s d list).2.releasePrev
        = some (decide (min s.releasePage (totalPages list.length s.releasePageSize) ≤ 1))
    ∧ (renderReleases s d list).2.releaseNext
        = some (decide (min s.releasePage (totalPages list.length s.releasePageSize)
            ≥ totalPages list.length s.releasePageSize))
    ∧ (renderReleases s d list).2.releaseStatus
        = some (toString list.length ++ " releases found.") := by
  rw [renderReleases_eq s d list hd]
  have htp := totalPages_pos list.length s.releasePageSize
  have hmin : 1 ≤ min s.releasePage (totalPages list.length s.releasePageSize) := le_min hp htp
  have hlen : list.length ≠ 0 := fun h => hne (List.length_eq_zero.mp h)
  refine ⟨totalPages_eq_ceil _ _ hps, rfl, ?_, rfl, rfl, rfl, ?_⟩
  · simp only [jsSlice]
    have e : (min s.releasePage (totalPages list.length s.releasePageSize) - 1)
        * s.releasePageSize + s.releasePageSize
        = min s.releasePage (totalPages list.length s.releasePageSize) * s.releasePageSize := by
      rw [← Nat.succ_mul]
      congr 1
      omega
    rw [e]
  · simp only [hlen, if_false]

/-- The run of C8: 45 items and page size 20. After the load, page 1 of 3 shows
items 0 to 19 with 'previous' disabled and 'next' enabled; after two 'next'
clicks, page 3 of 3 shows items 40 to 44 with 'next' disabled. -/
theorem scenario_45_releases :
    (run (initState 20 20, {}) [.releasesLoaded (okResponse sampleReleases)]).2.releaseInfo
        = some "Page 1 of 3"
    ∧ (run (initState 20 20, {}) [.releasesLoaded (okResponse sampleReleases)]).2.releaseList
        = some ((List.range 20).map fun i => releaseCard (sampleRelease i))
    ∧ (run (initState 20 20, {}) [.releasesLoaded (okResponse sampleReleases)]).2.releasePrev
        = some true
    ∧ (run (initState 20 20, {}) [.releasesLoaded (okResponse sampleReleases)]).2.releaseNext
        = some false
    ∧ (run (initState 20 20, {})
        [.releasesLoaded (okResponse sampleReleases), .releaseNext, .releaseNext]).2.releaseInfo
        = some "Page 3 of 3"
    ∧ (run (initState 20 20, {})
        [.releasesLoaded (okResponse sampleReleases), .releaseNext, .releaseNext]).2.releaseList
        = some ([40, 41, 42, 43, 44].map fun i => releaseCard (sampleRelease i))
    ∧ (run (initState 20 20, {})
        [.releasesLoaded (okResponse sampleReleases), .releaseNext, .releaseNext]).2.releaseNext
        = some true := by
  decide

theorem renderReleases_nonempty_witness :
    (({} : Page).releaseReady ∧ sampleReleases ≠ [] ∧ 0 < ({} : State).releasePageSize
      ∧ 1 ≤ ({} : State).releasePage)
    ∧ (renderReleases {} {} sampleReleases).2.releaseInfo = some "Page 1 of 3"
    ∧ (renderReleases {} {} sampleReleases).2.releasePrev = some true
    ∧ (renderReleases {} {} sampleReleases).2.releaseNext = some false :=
  ⟨⟨by decide, by decide, by decide, by decide⟩,
   (renderReleases_nonempty {} {} sampleReleases (by decide) (by decide) (by decide)
      (by decide)).2.2.2.1,
   (renderReleases_nonempty {} {} sampleReleases (by decide) (by decide) (by decide)
      (by decide)).2.2.2.2.1,
   (renderReleases_nonempty {} {} sampleReleases (by decide) (by decide) (by decide)
      (by decide)).2.2.2.2.2.1⟩

theorem pagination_invariant_witness :
    (0 < 20 ∧ ({} : Page).complete)
    ∧ 1 ≤ (run (initState 20 20, {})
        [.releasesLoaded (okResponse sampleReleases), .releaseNext]).1.releasePage
    ∧ (run (initState 20 20, {})
        [.releasesLoaded (okResponse sampleReleases), .releaseNext]).1.releasePage
        ≤ totalPages (run (initState 20 20, {})
            [.releasesLoaded (okResponse sampleReleases), .releaseNext]).1.releases.length 20
    ∧ (run (initState 20 20, {})
        [.releasesLoaded (okResponse sampleReleases), .releaseNext]).2.releaseInfo
        = some "Page 2 of 3" :=
  ⟨⟨by decide, by decide⟩,
   (pagination_invariant 20 20 (by decide) (by decide) {} (by decide)
      [.releasesLoaded (okResponse sampleReleases)] .releaseNext).1.2.1,
   (pagination_invariant 20 20 (by decide) (by decide) {} (by decide)
      [.releasesLoaded (okResponse sampleReleases)] .releaseNext).1.2.2.1,
   (pagination_invariant 20 20 (by decide) (by decide) {} (by decide)
      [.releasesLoaded (okResponse sampleReleases)] .releaseNext).1.2.2.2 rfl⟩

theorem setPage_noop_at_boundaries_witness :
    ({} : Page).complete
    ∧ run ({ releases := sampleReleases, releasePage := 1 }, {})
        (List.replicate 10 .releasePrev)
      = ({ releases := sampleReleases, releasePage := 1 },
         (renderReleases { releases := sampleReleases, releasePage := 1 } {} sampleReleases).2)
    ∧ run ({ releases := sampleReleases, releasePage := 3 }, {})
        (List.replicate 10 .releaseNext)
      = ({ releases := sampleReleases, releasePage := 3 },
         (renderReleases { releases := sampleReleases, releasePage := 3 } {} sampleReleases).2) :=
  ⟨by decide,
   (setPage_noop_at_boundaries { releases := sampleReleases, releasePage := 1 } {}
      (by decide) 9).1 rfl,
   (setPage_noop_at_boundaries { releases := sampleReleases, releasePage := 3 } {}
      (by decide) 9).2.1 (by decide)⟩

/-! ## The HTTP client -/

/-- On a status that is not a success `fetchJson` throws an `Error` carrying the
body, or the status when the body is empty. -/
theorem fetchJson_not_ok {α : Type} (res : Response α) (h : res.ok = false) :
    fetchJson (.ok res) = .error (.error
      (if res.text = "" then "Request failed: " ++ toString res.status else res.text)) := by
  by_cases ht : res.text = "" <;> simp [fetchJson, h, ht]

/-- C7. For a response whose status is not a success `fetchJson` fails with an
`Error` whose message is the body text, or "Request failed: " and the status
when the body is empty. For a success status its outcome is that of
`res.json()`: it returns the parsed body, and it never fails with an `Error`
of the first kind. -/
theorem fetchJson_contract {α : Type} (res : Response α) :
    (res.ok = false →
        fetchJson (.ok res) = .error (.error
          (if res.text = "" then "Request failed: " ++ toString res.status else res.text)))
    ∧ (res.ok = true →
        (∀ v, res.json = .ok v → fetchJson (.ok res) = .ok v)
        ∧ (∀ m, res.json = .error m → fetchJson (.ok res) = .error (.syntaxError m))
        ∧ (∀ m, fetchJson (.ok res) ≠ .error (.error m))) := by
  refine ⟨fetchJson_not_ok res, ?_⟩
  · intro h
    refine ⟨?_, ?_, ?_⟩
    · intro v hv
      simp [fetchJson, h, hv]
    · intro m hm
      simp [fetchJson, h, hm]
    · intro m
      cases hj : res.json <;> simp [fetchJson, h, hj]

theorem fetchJson_contract_witness :
    (fetchJson (failResponse 503 "" : Net Unit) = .error (.error "Request failed: 503"))
    ∧ (fetchJson (failResponse 500 "db locked" : Net Unit) = .error (.error "db locked"))
    ∧ (fetchJson (okResponse (7 : Nat)) = .ok 7) :=
  ⟨(fetchJson_contract
      ({ ok := false, status := 503, text := "", json := .error "Unexpected token" } :
        Response Unit)).1 rfl,
   (fetchJson_contract
      ({ ok := false, status := 500, text := "db locked", json := .error "Unexpected token" } :
        Response Unit)).1 rfl,
   ((fetchJson_contract
      ({ ok := true, status := 200, text := "", json := .ok 7 } : Response Nat)).2 rfl).1 7 rfl⟩

/-! ## The settings form: what a submit sends -/

theorem getElem_append_cons {α : Type} (l r : List α) (x : α) :
    (l ++ x :: r)[l.length]? = some x := by
  rw [List.getElem?_append_right (le_refl _)]
  simp

theorem web_loadSettings_requests (f : SettingsPage) (net : Net Settings) :
    (Web.loadSettings f net).requests
      = f.requests ++ [{ method := "GET", url := "/api/settings" }] := by
  unfold Web.loadSettings
  cases fetchJson net <;> rfl

theorem gui_loadSettings_requests (f : SettingsPage) (net : Net Settings) :
    (Gui.loadSettings f net).requests
      = f.requests ++ [{ method := "GET", url := basePath f.pathname ++ "/api/settings" }] := by
  unfold Gui.loadSettings
  cases fetchJson net <;> rfl

theorem syno_loadSettings_requests (f : Syno.SettingsForm) (net : Net Settings) :
    (Syno.loadSettings f net).requests
      = f.requests ++ [{ method := "GET", url := Syno.getBaseUrl ++ "/api/settings" }] := by
  unfold Syno.loadSettings
  cases Syno.succeeded net with
  | none => rfl
  | some resp =>
    dsimp only
    cases resp.json <;> rfl

/-- The requests of one submit on the plain page: the update, then the reload
when the update succeeded. -/
theorem web_submit_requests (f : SettingsPage) (post : Net Unit) (reload : Net Settings) :
    (Web.submit f post reload).requests
      = f.requests ++ Web.submitRequest f ::
          (match fetchJson post with
           | .ok _ => [{ method := "GET", url := "/api/settings" }]
           | .error _ => []) := by
  unfold Web.submit
  cases fetchJson post with
  | ok u =>
    simp only [web_loadSettings_requests]
    simp [setStatus, SettingsPage.send, Web.submitRequest, Web.payload]
  | error err => simp [setStatus, SettingsPage.send, Web.submitRequest, Web.payload]

/-- The requests of one submit on the prefixed page. -/
theorem gui_submit_requests (f : SettingsPage) (post : Net Unit) (reload : Net Settings) :
    (Gui.submit f post reload).requests
      = f.requests ++ Gui.submitRequest f ::
          (match fetchJson post with
           | .ok _ => [{ method := "GET", url := basePath f.pathname ++ "/api/settings" }]
           | .error _ => []) := by
  unfold Gui.submit
  cases fetchJson post with
  | ok u =>
    simp only [gui_loadSettings_requests]
    simp [setStatus, SettingsPage.send, Gui.submitRequest, Gui.payload]
  | error err => simp [setStatus, SettingsPage.send, Gui.submitRequest, Gui.payload]

/-- The requests of one `saveSettings` of the widget. -/
theorem syno_saveSettings_requests (f : Syno.SettingsForm) (post : Net Unit)
    (reload : Net Settings) :
    (Syno.saveSettings f post reload).requests
      = f.requests ++ Syno.saveRequest f ::
          (match Syno.succeeded post with
           | some _ => [{ method := "GET", url := Syno.getBaseUrl ++ "/api/settings" }]
           | none => []) := by
  unfold Syno.saveSettings
  cases Syno.succeeded post with
  | some resp =>
    simp only [syno_loadSettings_requests]
    simp [Syno.SettingsForm.send]
  | none => simp [Syno.SettingsForm.send]

/-- The submit listener of the plain page sends its update first. -/
theorem web_submit_sends (f : SettingsPage) (post : Net Unit) (reload : Net Settings) :
    (Web.submit f post reload).requests[f.requests.length]? = some (Web.submitRequest f) := by
  rw [web_submit_requests]
  exact getElem_append_cons _ _ _

/-- The submit listener of the prefixed page sends its update first. -/
theorem gui_submit_sends (f : SettingsPage) (post : Net Unit) (reload : Net Settings) :
    (Gui.submit f post reload).requests[f.requests.length]? = some (Gui.submitRequest f) := by
  rw [gui_submit_requests]
  exact getElem_append_cons _ _ _

/-- Function `saveSettings` of the widget sends its update first. -/
theorem syno_saveSettings_sends (f : Syno.SettingsForm) (post : Net Unit)
    (reload : Net Settings) :
    (Syno.saveSettings f post reload).requests[f.requests.length]?
      = some (Syno.saveRequest f) := by
  rw [syno_saveSettings_requests]
  exact getElem_append_cons _ _ _

/-- C2, as stated, fails: with the secret "hunter2" typed and the clear checkbox
checked, the update each host sends carries `NNTP_PASS` and also
`clear_password: true`. -/
theorem set_wins_over_clear_counterexample :
    (Web.submit { nntpPass := "hunter2", nntpPassClear := true }
        (okResponse ()) (okResponse {})).requests[0]?
      = some { method := "POST", url := "/api/settings", headers := jsonHeaders,
               body := some (.settings
                 { NNTP_HOST := "", NNTP_PORT := "", NNTP_SSL := false, NNTP_USER := "",
                   NNTP_LOOKBACK := "", NNTP_GROUPS := "",
                   clear_password := true, NNTP_PASS := some "hunter2" }) }
    ∧ (Gui.payload { nntpPass := "hunter2", nntpPassClear := true }).NNTP_PASS = some "hunter2"
    ∧ (Gui.payload { nntpPass := "hunter2", nntpPassClear := true }).clear_password = true
    ∧ (Syno.payload { NNTP_PASS := "hunter2", CLEAR_PASS := true }).NNTP_PASS = some "hunter2"
    ∧ (Syno.payload { NNTP_PASS := "hunter2", CLEAR_PASS := true }).clear_password = true := by
  decide

/-- C2, amended. When the typed secret is non-empty and the clear checkbox is
checked, the update each host sends carries `NNTP_PASS` equal to the typed
secret together with `clear_password: true`: the checkbox value is always sent. -/
theorem payload_secret_and_clear (f : SettingsPage) (g : Syno.SettingsForm) (post : Net Unit)
    (reload : Net Settings) :
    (f.nntpPass ≠ "" → f.nntpPassClear = true →
        ((Web.payload f).NNTP_PASS = some f.nntpPass ∧ (Web.payload f).clear_password = true
          ∧ (Web.submit f post reload).requests[f.requests.length]?
              = some { method := "POST", url := "/api/settings", headers := jsonHeaders,
                       body := some (.settings (Web.payload f)) })
        ∧ ((Gui.payload f).NNTP_PASS = some f.nntpPass ∧ (Gui.payload f).clear_password = true
          ∧ (Gui.submit f post reload).requests[f.requests.length]?
              = some { method := "POST", url := basePath f.pathname ++ "/api/settings",
                       headers := jsonHeaders, body := some (.settings (Gui.payload f)) }))
    ∧ (g.NNTP_PASS ≠ "" → g.CLEAR_PASS = true →
        (Syno.payload g).NNTP_PASS = some g.NNTP_PASS ∧ (Syno.payload g).clear_password = true
        ∧ (Syno.saveSettings g post reload).requests[g.requests.length]?
            = some { method := "POST", url := "/tricerapost/api/settings",
                     headers := jsonHeaders, body := some (.settings (Syno.payload g)) }) := by
  refine ⟨?_, ?_⟩
  · intro hp hc
    refine ⟨⟨?_, hc, web_submit_sends f post reload⟩, ⟨?_, hc, gui_submit_sends f post reload⟩⟩
    · simp [Web.payload, hp]
    · simp [Gui.payload, hp]
  · intro hp hc
    refine ⟨?_, hc, syno_saveSettings_sends g post reload⟩
    simp [Syno.payload, hp]

theorem payload_secret_and_clear_witness :
    (Web.payload { nntpPass := "hunter2", nntpPassClear := true }).NNTP_PASS = some "hunter2"
    ∧ (Web.payload { nntpPass := "hunter2", nntpPassClear := true }).clear_password = true
    ∧ (Syno.payload { NNTP_PASS := "hunter2", CLEAR_PASS := true }).clear_password = true :=
  ⟨((payload_secret_and_clear { nntpPass := "hunter2", nntpPassClear := true }
        { NNTP_PASS := "hunter2", CLEAR_PASS := true } (okResponse ()) (okResponse {})).1
        (by decide) rfl).1.1,
   ((payload_secret_and_clear { nntpPass := "hunter2", nntpPassClear := true }
        { NNTP_PASS := "hunter2", CLEAR_PASS := true } (okResponse ()) (okResponse {})).1
        (by decide) rfl).1.2.1,
   ((payload_secret_and_clear { nntpPass := "hunter2", nntpPassClear := true }
        { NNTP_PASS := "hunter2", CLEAR_PASS := true } (okResponse ()) (okResponse {})).2
        (by decide) rfl).2.1⟩

/-- C3. When the typed secret is empty and the clear checkbox is unchecked, the
update each host sends has no `NNTP_PASS` key and its `clear_password` is
`false`. -/
theorem payload_untouched_secret (f : SettingsPage) (g : Syno.SettingsForm) (post : Net Unit)
    (reload : Net Settings) :
    (f.nntpPass = "" → f.nntpPassClear = false →
        ((Web.payload f).NNTP_PASS = none ∧ (Web.payload f).clear_password = false
          ∧ (Web.submit f post reload).requests[f.requests.length]?
              = some { method := "POST", url := "/api/settings", headers := jsonHeaders,
                       body := some (.settings (Web.payload f)) })
        ∧ ((Gui.payload f).NNTP_PASS = none ∧ (Gui.payload f).clear_password = false
          ∧ (Gui.submit f post reload).requests[f.requests.length]?
              = some { method := "POST", url := basePath f.pathname ++ "/api/settings",
                       headers := jsonHeaders, body := some (.settings (Gui.payload f)) }))
    ∧ (g.NNTP_PASS = "" → g.CLEAR_PASS = false →
        (Syno.payload g).NNTP_PASS = none ∧ (Syno.payload g).clear_password = false
        ∧ (Syno.saveSettings g post reload).requests[g.requests.length]?
            = some { method := "POST", url := "/tricerapost/api/settings",
                     headers := jsonHeaders, body := some (.settings (Syno.payload g)) }) := by
  refine ⟨?_, ?_⟩
  · intro hp hc
    refine ⟨⟨?_, hc, web_submit_sends f post reload⟩, ⟨?_, hc, gui_submit_sends f post reload⟩⟩
    · simp [Web.payload, hp]
    · simp [Gui.payload, hp]
  · intro hp hc
    refine ⟨?_, hc, syno_saveSettings_sends g post reload⟩
    simp [Syno.payload, hp]

theorem payload_untouched_secret_witness :
    (Web.payload { nntpHost := "news.example.org", nntpPort := "563" }).NNTP_PASS = none
    ∧ (Web.payload { nntpHost := "news.example.org", nntpPort := "563" }).clear_password = false
    ∧ (Syno.payload { NNTP_HOST := "news.example.org" }).NNTP_PASS = none :=
  ⟨((payload_untouched_secret { nntpHost := "news.example.org", nntpPort := "563" }
        { NNTP_HOST := "news.example.org" } (okResponse ()) (okResponse {})).1 rfl rfl).1.1,
   ((payload_untouched_secret { nntpHost := "news.example.org", nntpPort := "563" }
        { NNTP_HOST := "news.example.org" } (okResponse ()) (okResponse {})).1 rfl rfl).1.2.1,
   ((payload_untouched_secret { nntpHost := "news.example.org", nntpPort := "563" }
        { NNTP_HOST := "news.example.org" } (okResponse ()) (okResponse {})).2 rfl rfl).1⟩

/-! ## The settings form: the secret input -/

/-- Function `loadSettings` of the plain page writes neither the secret input nor the
clear checkbox. -/
theorem web_loadSettings_secret (f : SettingsPage) (net : Net Settings) :
    (Web.loadSettings f net).nntpPass = f.nntpPass
    ∧ (Web.loadSettings f net).nntpPassClear = f.nntpPassClear := by
  unfold Web.loadSettings
  cases fetchJson net <;> exact ⟨rfl, rfl⟩

/-- Function `loadSettings` of the prefixed page writes neither the secret input nor the
clear checkbox. -/
theorem gui_loadSettings_secret (f : SettingsPage) (net : Net Settings) :
    (Gui.loadSettings f net).nntpPass = f.nntpPass
    ∧ (Gui.loadSettings f net).nntpPassClear = f.nntpPassClear := by
  unfold Gui.loadSettings
  cases fetchJson net <;> exact ⟨rfl, rfl⟩

/-- C4, as stated, fails: a submit whose POST is answered with status 500 ends
with the typed secret still in the input and the clear checkbox still checked,
in each host. -/
theorem secret_wiped_after_submit_counterexample :
    (Web.submit { nntpPass := "hunter2", nntpPassClear := true }
        (failResponse 500 "boom") (okResponse {})).nntpPass = "hunter2"
    ∧ (Web.submit { nntpPass := "hunter2", nntpPassClear := true }
        (failResponse 500 "boom") (okResponse {})).nntpPassClear = true
    ∧ (Gui.submit { nntpPass := "hunter2", nntpPassClear := true }
        (failResponse 500 "boom") (okResponse {})).nntpPass = "hunter2"
    ∧ (Syno.saveSettings { NNTP_PASS := "hunter2", CLEAR_PASS := true }
        (failResponse 500 "boom") (okResponse {})).NNTP_PASS = "hunter2" := by
  decide

/-- C4, amended. After a submit whose POST succeeds, the secret input is empty
and the clear checkbox is false on the plain and the prefixed page whatever the
reload answers, and in the widget once the reload has succeeded too. After a
submit whose POST fails, both keep the values they had, in each host. -/
theorem secret_wiped_after_successful_submit (f : SettingsPage) (g : Syno.SettingsForm)
    (post : Net Unit) (reload : Net Settings) :
    (fetchJson post = .ok () →
        (Web.submit f post reload).nntpPass = "" ∧ (Web.submit f post reload).nntpPassClear = false
        ∧ (Gui.submit f post reload).nntpPass = ""
        ∧ (Gui.submit f post reload).nntpPassClear = false)
    ∧ (∀ err, fetchJson post = .error err →
        (Web.submit f post reload).nntpPass = f.nntpPass
        ∧ (Web.submit f post reload).nntpPassClear = f.nntpPassClear
        ∧ (Gui.submit f post reload).nntpPass = f.nntpPass
        ∧ (Gui.submit f post reload).nntpPassClear = f.nntpPassClear)
    ∧ (∀ r1 r2 data, Syno.succeeded post = some r1 → Syno.succeeded reload = some r2 →
        r2.json = .ok data →
        (Syno.saveSettings g post reload).NNTP_PASS = ""
        ∧ (Syno.saveSettings g post reload).CLEAR_PASS = false)
    ∧ (Syno.succeeded post = none →
        (Syno.saveSettings g post reload).NNTP_PASS = g.NNTP_PASS
        ∧ (Syno.saveSettings g post reload).CLEAR_PASS = g.CLEAR_PASS) := by
  refine ⟨?_, ?_, ?_, ?_⟩
  · intro h
    unfold Web.submit Gui.submit
    simp only [h]
    refine ⟨?_, ?_, ?_, ?_⟩
    · rw [(web_loadSettings_secret _ reload).1]; rfl
    · rw [(web_loadSettings_secret _ reload).2]; rfl
    · rw [(gui_loadSettings_secret _ reload).1]; rfl
    · rw [(gui_loadSettings_secret _ reload).2]; rfl
  · intro err h
    unfold Web.submit Gui.submit
    simp only [h]
    exact ⟨rfl, rfl, rfl, rfl⟩
  · intro r1 r2 data h1 h2 h3
    unfold Syno.saveSettings Syno.loadSettings
    simp [h1, h2, h3]
  · intro h
    unfold Syno.saveSettings
    simp only [h]
    exact ⟨rfl, rfl⟩

theorem secret_wiped_after_successful_submit_witness :
    (Web.submit { nntpPass := "hunter2", nntpPassClear := true }
        (okResponse ()) (failResponse 500 "db locked")).nntpPass = ""
    ∧ (Web.submit { nntpPass := "hunter2", nntpPassClear := true }
        (okResponse ()) (failResponse 500 "db locked")).nntpPassClear = false
    ∧ (Syno.saveSettings { NNTP_PASS := "hunter2", CLEAR_PASS := true }
        (okResponse ()) (okResponse {})).NNTP_PASS = "" :=
  ⟨((secret_wiped_after_successful_submit { nntpPass := "hunter2", nntpPassClear := true }
        { NNTP_PASS := "hunter2", CLEAR_PASS := true } (okResponse ())
        (failResponse 500 "db locked")).1 rfl).1,
   ((secret_wiped_after_successful_submit { nntpPass := "hunter2", nntpPassClear := true }
        { NNTP_PASS := "hunter2", CLEAR_PASS := true } (okResponse ())
        (failResponse 500 "db locked")).1 rfl).2.1,
   ((secret_wiped_after_successful_submit { nntpPass := "hunter2", nntpPassClear := true }
        { NNTP_PASS := "hunter2", CLEAR_PASS := true } (okResponse ())
        (okResponse {})).2.2.1 _ _ {} rfl rfl rfl).1⟩

/-- C6, as stated, fails: on the plain and on the prefixed page a successful
load leaves a secret that was in the input where it is. -/
theorem load_empties_secret_counterexample :
    (Web.loadSettings { nntpPass := "typed" }
        (okResponse { NNTP_PASS_SET := .bool true })).nntpPass = "typed"
    ∧ (Gui.loadSettings { nntpPass := "typed" }
        (okResponse { NNTP_PASS_SET := .bool true })).nntpPass = "typed" := by
  decide

/-- C6, amended. After a successful load the password-status label is
"Password stored" when `NNTP_PASS_SET` is truthy and "No password stored"
otherwise, in each host (on the two pages when the label element exists). The
widget empties the secret input whatever it held; the two pages leave the
secret input as it was, so it is empty after the load when it was before. -/
theorem load_password_label (f : SettingsPage) (g : Syno.SettingsForm) (net : Net Settings)
    (settings : Settings) :
    (fetchJson net = .ok settings →
        (Web.loadSettings f net).nntpPassStatus
          = f.nntpPassStatus.map (fun _ =>
              if settings.NNTP_PASS_SET.truthy then "Password stored" else "No password stored")
        ∧ (Web.loadSettings f net).nntpPass = f.nntpPass
        ∧ (Gui.loadSettings f net).nntpPassStatus
          = f.nntpPassStatus.map (fun _ =>
              if settings.NNTP_PASS_SET.truthy then "Password stored" else "No password stored")
        ∧ (Gui.loadSettings f net).nntpPass = f.nntpPass)
    ∧ (∀ resp, Syno.succeeded net = some resp → resp.json = .ok settings →
        (Syno.loadSettings g net).NNTP_PASS_STATUS
          = (if settings.NNTP_PASS_SET.truthy then "Password stored" else "No password stored")
        ∧ (Syno.loadSettings g net).NNTP_PASS = "") := by
  refine ⟨?_, ?_⟩
  · intro h
    refine ⟨?_, (web_loadSettings_secret f net).1, ?_, (gui_loadSettings_secret f net).1⟩
    · unfold Web.loadSettings
      simp only [h]
      rfl
    · unfold Gui.loadSettings
      simp only [h]
      rfl
  · intro resp h1 h2
    unfold Syno.loadSettings
    simp [h1, h2, passLabel]

theorem load_password_label_witness :
    (Web.loadSettings { nntpPass := "" } (okResponse { NNTP_PASS_SET := .bool true })).nntpPassStatus
        = some "Password stored"
    ∧ (Web.loadSettings { nntpPass := "" } (okResponse { NNTP_PASS_SET := .bool true })).nntpPass
        = ""
    ∧ (Syno.loadSettings { NNTP_PASS := "typed" }
        (okResponse { NNTP_PASS_SET := .bool true })).NNTP_PASS = "" :=
  ⟨((load_password_label { nntpPass := "" } { NNTP_PASS := "typed" }
        (okResponse { NNTP_PASS_SET := .bool true }) { NNTP_PASS_SET := .bool true }).1 rfl).1,
   ((load_password_label { nntpPass := "" } { NNTP_PASS := "typed" }
        (okResponse { NNTP_PASS_SET := .bool true }) { NNTP_PASS_SET := .bool true }).1 rfl).2.1,
   ((load_password_label { nntpPass := "" } { NNTP_PASS := "typed" }
        (okResponse { NNTP_PASS_SET := .bool true }) { NNTP_PASS_SET := .bool true }).2
        _ rfl rfl).2⟩

/-! ## Administrative actions -/

/-- C9, as stated, fails: a click on 'save all NZBs' sends
`POST /api/nzb/save_all` although no confirmation prompt was shown, on the index
page and in the widget. -/
theorem admin_confirmation_counterexample :
    (saveAllNzbsClick (initState 20 20) {} (failResponse 500 "") (okResponse [])).2.requests
        = [{ method := "POST", url := "/api/nzb/save_all" }]
    ∧ (saveAllNzbsClick (initState 20 20) {} (failResponse 500 "") (okResponse [])).2.prompts
        = []
    ∧ (Syno.saveAllNzbs {} (failResponse 500 "") (okResponse {}) "").requests
        = [{ method := "POST", url := "/tricerapost/api/nzb/save_all" }]
    ∧ (Syno.saveAllNzbs {} (failResponse 500 "") (okResponse {}) "").prompts = [] := by
  decide

theorem renderNzbPagination_log (s : State) (d : Page) (total : Nat) :
    (renderNzbPagination s d total).2.requests = d.requests
    ∧ (renderNzbPagination s d total).2.prompts = d.prompts := by
  unfold renderNzbPagination
  split <;> exact ⟨rfl, rfl⟩

theorem renderNzbs_log (s : State) (d : Page) (list : List Nzb) :
    (renderNzbs s d list).2.requests = d.requests
    ∧ (renderNzbs s d list).2.prompts = d.prompts := by
  unfold renderNzbs
  split
  · exact ⟨rfl, rfl⟩
  · split
    · exact renderNzbPagination_log s _ 0
    · exact renderNzbPagination_log s _ list.length

theorem loadNzbs_requests (s : State) (d : Page) (net : Net (List Nzb)) :
    (loadNzbs s d net).2.requests
        = d.requests ++ [{ method := "GET", url := basePath d.pathname ++ "/api/nzbs" }]
    ∧ (loadNzbs s d net).2.prompts = d.prompts := by
  unfold loadNzbs
  cases fetchJson net with
  | error err => exact ⟨rfl, rfl⟩
  | ok list => exact renderNzbs_log _ (d.send _) list

theorem saveAllNzbsClick_requests (s : State) (d : Page) (post : Net SaveAllResult)
    (reload : Net (List Nzb)) :
    (saveAllNzbsClick s d post reload).2.requests
      = d.requests ++ { method := "POST", url := basePath d.pathname ++ "/api/nzb/save_all" } ::
          (match fetchJson post with
           | .ok _ => [{ method := "GET", url := basePath d.pathname ++ "/api/nzbs" }]
           | .error _ => []) := by
  unfold saveAllNzbsClick
  cases fetchJson post with
  | error err => simp [Page.send]
  | ok result =>
    dsimp only
    rw [(loadNzbs_requests s _ reload).1]
    simp [Page.send]

theorem syno_saveAllNzbs_requests (p : Syno.StatusPanel) (post : Net SaveAllResult)
    (status : Net Syno.StatusData) (now : String) :
    (Syno.saveAllNzbs p post status now).requests
      = p.requests ++ { method := "POST", url := "/tricerapost/api/nzb/save_all" } ::
          (match Syno.succeeded post with
           | some _ => [{ method := "GET", url := "/tricerapost/api/status" }]
           | none => []) := by
  unfold Syno.saveAllNzbs
  cases Syno.succeeded post with
  | none =>
    simp only [List.append_cancel_left_eq]
    decide
  | some resp =>
    dsimp only
    unfold Syno.refreshStatus
    have e1 : Syno.getBaseUrl ++ "/api/nzb/save_all" = "/tricerapost/api/nzb/save_all" := by
      decide
    have e2 : Syno.getBaseUrl ++ "/api/status" = "/tricerapost/api/status" := by decide
    cases Syno.succeeded status <;> simp [e1, e2]

/-- C9, amended. The 'clear database' action never sends its request without
confirmation: on the prefixed page and in the widget, when the operator does not
answer yes to the prompt the handler issues no request, and when the operator
does it issues `POST /api/admin/clear_db` with `{confirm: true}`. The 'save all
NZBs' action asks no confirmation: each click sends `POST /api/nzb/save_all`
and shows no prompt. -/
theorem clear_db_needs_confirmation (f : SettingsPage) (g : Syno.SettingsForm) (net : Net Unit)
    (s : State) (d : Page) (p : Syno.StatusPanel) (post : Net SaveAllResult)
    (reload : Net (List Nzb)) (status : Net Syno.StatusData) (now : String) :
    (Gui.clearDbClick f false net).requests = f.requests
    ∧ (Gui.clearDbClick f false net).prompts = f.prompts ++ [Gui.clearPrompt]
    ∧ (Gui.clearDbClick f true net).requests
        = f.requests ++ [{ method := "POST", url := basePath f.pathname ++ "/api/admin/clear_db",
                           headers := jsonHeaders, body := some .confirmTrue }]
    ∧ (∀ btn, btn ≠ "yes" →
        (Syno.clearDatabase g btn net).requests = g.requests
        ∧ (Syno.clearDatabase g btn net).prompts = g.prompts ++ [Syno.clearPrompt])
    ∧ (Syno.clearDatabase g "yes" net).requests
        = g.requests ++ [{ method := "POST", url := "/tricerapost/api/admin/clear_db",
                           headers := jsonHeaders, body := some .confirmTrue }]
    ∧ (saveAllNzbsClick s d post reload).2.requests[d.requests.length]?
        = some { method := "POST", url := basePath d.pathname ++ "/api/nzb/save_all" }
    ∧ (saveAllNzbsClick s d post reload).2.prompts = d.prompts
    ∧ (Syno.saveAllNzbs p post status now).requests[p.requests.length]?
        = some { method := "POST", url := "/tricerapost/api/nzb/save_all" }
    ∧ (Syno.saveAllNzbs p post status now).prompts = p.prompts := by
  refine ⟨rfl, rfl, ?_, ?_, ?_, ?_, ?_, ?_, ?_⟩
  · unfold Gui.clearDbClick
    cases fetchJson net <;> rfl
  · intro btn hb
    unfold Syno.clearDatabase
    simp [hb]
  · unfold Syno.clearDatabase
    cases Syno.succeeded net <;> rfl
  · rw [saveAllNzbsClick_requests]
    exact getElem_append_cons _ _ _
  · unfold saveAllNzbsClick
    cases fetchJson post with
    | error err => rfl
    | ok result =>
      dsimp only
      rw [(loadNzbs_requests s _ reload).2]
      rfl
  · rw [syno_saveAllNzbs_requests]
    exact getElem_append_cons _ _ _
  · unfold Syno.saveAllNzbs
    cases Syno.succeeded post with
    | none => rfl
    | some resp =>
      dsimp only
      unfold Syno.refreshStatus
      cases Syno.succeeded status <;> rfl

theorem clear_db_needs_confirmation_witness :
    (Syno.clearDatabase {} "no" (okResponse ())).requests = []
    ∧ (Syno.clearDatabase {} "no" (okResponse ())).prompts = [Syno.clearPrompt] :=
  ((clear_db_needs_confirmation {} {} (okResponse ()) {} {} {} (okResponse {}) (okResponse [])
      (okResponse {}) "").2.2.2.1 "no" (by decide))

/-! ## A failed load of the settings -/

/-- C10, as stated, fails: in the widget a load answered with status 500 and
body "db locked" sets the status to "Failed to load settings.", without the
body. -/
theorem failed_load_status_counterexample :
    (Syno.loadSettings {} (failResponse 500 "db locked")).SAVE_STATUS
        = "Failed to load settings."
    ∧ (Syno.loadSettings {} (failResponse 500 "db locked")).SAVE_STATUS
        ≠ "Failed to load settings: db locked" := by
  decide

/-- C10, amended. When the GET of the settings fails with error message `m` (the
response body when it is not empty), `loadSettings` of the plain and of the
prefixed page sets the status text to "Failed to load settings: " followed by
`m`, in the error colour, and `loadSettings` of the widget sets it to
"Failed to load settings."; in each host every form field and the
password-status label keep their values (only the request log grows). -/
theorem failed_load_keeps_form (f : SettingsPage) (g : Syno.SettingsForm) (net : Net Settings) :
    (∀ err, fetchJson net = .error err →
        Web.loadSettings f net
          = { f with
              saveStatus := f.saveStatus.map fun _ =>
                { text := "Failed to load settings: " ++ err.message, color := "#8e2c0a" }
              requests := f.requests ++ [{ method := "GET", url := "/api/settings" }] }
        ∧ Gui.loadSettings f net
          = { f with
              saveStatus := f.saveStatus.map fun _ =>
                { text := "Failed to load settings: " ++ err.message, color := "#8e2c0a" }
              requests := f.requests
                ++ [{ method := "GET", url := basePath f.pathname ++ "/api/settings" }] })
    ∧ (∀ res, net = .ok res → res.ok = false → res.text ≠ "" →
        (Web.loadSettings f net).saveStatus
          = f.saveStatus.map (fun _ =>
              { text := "Failed to load settings: " ++ res.text, color := "#8e2c0a" })
        ∧ (Gui.loadSettings f net).saveStatus
          = f.saveStatus.map (fun _ =>
              { text := "Failed to load settings: " ++ res.text, color := "#8e2c0a" }))
    ∧ (Syno.succeeded net = none →
        Syno.loadSettings g net
          = { g with
              SAVE_STATUS := "Failed to load settings."
              requests := g.requests
                ++ [{ method := "GET", url := "/tricerapost/api/settings" }] }) := by
  refine ⟨?_, ?_, ?_⟩
  · intro err h
    unfold Web.loadSettings Gui.loadSettings
    simp only [h]
    exact ⟨rfl, rfl⟩
  · intro res h1 h2 h3
    subst h1
    have h := fetchJson_not_ok res h2
    simp only [h3, if_false] at h
    unfold Web.loadSettings Gui.loadSettings
    simp only [h]
    exact ⟨rfl, rfl⟩
  · intro h
    unfold Syno.loadSettings
    simp only [h]
    rfl

theorem failed_load_keeps_form_witness :
    (Web.loadSettings { nntpHost := "news.example.org", nntpPass := "typed" }
        (failResponse 500 "db locked")).saveStatus
      = some { text := "Failed to load settings: db locked", color := "#8e2c0a" }
    ∧ (Web.loadSettings { nntpHost := "news.example.org", nntpPass := "typed" }
        (failResponse 500 "db locked")).nntpHost = "news.example.org" := by
  have h := ((failed_load_keeps_form { nntpHost := "news.example.org", nntpPass := "typed" } {}
    (failResponse 500 "db locked")).1 (.error "db locked") rfl).1
  rw [h]
  decide

/-! ## Reloading a collection -/

theorem loadReleases_ok (s : State) (d : Page) (net : Net (List Release)) (list : List Release)
    (h : fetchJson net = .ok list) :
    loadReleases s d net
      = renderReleases { s with releases := list }
          (d.send { method := "GET", url := basePath d.pathname ++ "/api/releases" }) list := by
  unfold loadReleases
  simp only [h]

theorem loadNzbs_ok (s : State) (d : Page) (net : Net (List Nzb)) (list : List Nzb)
    (h : fetchJson net = .ok list) :
    loadNzbs s d net
      = renderNzbs { s with nzbs := list }
          (d.send { method := "GET", url := basePath d.pathname ++ "/api/nzbs" }) list := by
  unfold loadNzbs
  simp only [h]

/-- C11. On a page that has the elements of the collection and for a positive
page size, after `loadReleases` (resp. `loadNzbs`) has succeeded with a list of
length `n` and rendered it, the list is the new one and the current page is
`min(p, max(1, ceil(n / pageSize)))` for the page `p` held before; so it is
still `p` whenever the new list has at least `p` pages, and the indicator shows
it. -/
theorem reload_keeps_position (s : State) (d : Page) (hd : d.complete)
    (hr : 0 < s.releasePageSize) (hn : 0 < s.nzbPageSize) :
    (∀ (net : Net (List Release)) (list : List Release), fetchJson net = .ok list →
        (loadReleases s d net).1.releases = list
        ∧ (loadReleases s d net).1.releasePage
            = min s.releasePage (max 1 ⌈(list.length : ℚ) / (s.releasePageSize : ℚ)⌉₊)
        ∧ (s.releasePage ≤ max 1 ⌈(list.length : ℚ) / (s.releasePageSize : ℚ)⌉₊ →
            (loadReleases s d net).1.releasePage = s.releasePage)
        ∧ (loadReleases s d net).2.releaseInfo
            = some (pageInfo (loadReleases s d net).1.releasePage
                (max 1 ⌈(list.length : ℚ) / (s.releasePageSize : ℚ)⌉₊)))
    ∧ (∀ (net : Net (List Nzb)) (list : List Nzb), fetchJson net = .ok list →
        (loadNzbs s d net).1.nzbs = list
        ∧ (loadNzbs s d net).1.nzbPage
            = min s.nzbPage (max 1 ⌈(list.length : ℚ) / (s.nzbPageSize : ℚ)⌉₊)
        ∧ (s.nzbPage ≤ max 1 ⌈(list.length : ℚ) / (s.nzbPageSize : ℚ)⌉₊ →
            (loadNzbs s d net).1.nzbPage = s.nzbPage)
        ∧ (loadNzbs s d net).2.nzbInfo
            = some (pageInfo (loadNzbs s d net).1.nzbPage
                (max 1 ⌈(list.length : ℚ) / (s.nzbPageSize : ℚ)⌉₊))) := by
  refine ⟨?_, ?_⟩
  · intro net list h
    rw [loadReleases_ok s d net list h, renderReleases_eq _ (d.send _) list hd.1,
      ← totalPages_eq_ceil list.length s.releasePageSize hr]
    refine ⟨rfl, rfl, ?_, rfl⟩
    intro hle
    exact min_eq_left hle
  · intro net list h
    rw [loadNzbs_ok s d net list h, renderNzbs_eq _ (d.send _) list hd.2,
      ← totalPages_eq_ceil list.length s.nzbPageSize hn]
    refine ⟨rfl, rfl, ?_, rfl⟩
    intro hle
    exact min_eq_left hle

theorem reload_keeps_position_witness :
    (({} : Page).complete ∧ 0 < 20)
    ∧ (loadReleases { releases := sampleReleases, releasePage := 3 } {}
        (okResponse sampleReleases)).1.releasePage = 3
    ∧ (loadReleases { releases := sampleReleases, releasePage := 3 } {}
        (okResponse (sampleReleases.take 25))).1.releasePage = 2 :=
  ⟨⟨by decide, by decide⟩,
   ((reload_keeps_position { releases := sampleReleases, releasePage := 3 } {} (by decide)
      (by decide) (by decide)).1 (okResponse sampleReleases) sampleReleases rfl).2.2.1
      (by rw [← totalPages_eq_ceil _ _ (by decide)]; decide),
   (((reload_keeps_position { releases := sampleReleases, releasePage := 3 } {} (by decide)
      (by decide) (by decide)).1 (okResponse (sampleReleases.take 25))
      (sampleReleases.take 25) rfl).2.1).trans
      (by rw [← totalPages_eq_ceil _ _ (by decide)]; decide)⟩

/-! ## The empty collection -/

/-- C13. On a page that has the release elements and for a positive page size,
rendering an empty releases list from any current page `p ≥ 1` sets the status
to "No complete releases yet.", the indicator to "Page 1 of 1", disables both
'previous' and 'next', shows no item and leaves the stored current page equal
to 1 (the rest of the `state` object is untouched). -/
theorem renderReleases_empty (s : State) (d : Page) (hd : d.releaseReady)
    (hps : 0 < s.releasePageSize) (hp : 1 ≤ s.releasePage) :
    (renderReleases s d []).2.releaseStatus = some "No complete releases yet."
    ∧ (renderReleases s d []).2.releaseInfo = some "Page 1 of 1"
    ∧ (renderReleases s d []).2.releasePrev = some true
    ∧ (renderReleases s d []).2.releaseNext = some true
    ∧ (renderReleases s d []).2.releaseList = some []
    ∧ (renderReleases s d []).1 = { s with releasePage := 1 } := by
  rw [renderReleases_eq s d [] hd]
  have htp : totalPages ([] : List Release).length s.releasePageSize = 1 :=
    totalPages_zero s.releasePageSize hps
  have hmin : min s.releasePage 1 = 1 := min_eq_right hp
  rw [htp, hmin]
  refine ⟨rfl, rfl, rfl, rfl, ?_, rfl⟩
  simp [jsSlice_nil]

theorem renderReleases_empty_witness :
    (({} : Page).releaseReady ∧ 0 < 20 ∧ 1 ≤ 3)
    ∧ (renderReleases { releases := sampleReleases, releasePage := 3 } {} []).2.releaseInfo
        = some "Page 1 of 1"
    ∧ (renderReleases { releases := sampleReleases, releasePage := 3 } {} []).1.releasePage = 1 :=
  ⟨⟨by decide, by decide, by decide⟩,
   (renderReleases_empty { releases := sampleReleases, releasePage := 3 } {} (by decide)
      (by decide) (by decide)).2.1,
   congrArg State.releasePage
     (renderReleases_empty { releases := sampleReleases, releasePage := 3 } {} (by decide)
        (by decide) (by decide)).2.2.2.2.2⟩

/-! ## The password-status label after a submit -/

/-- The label after a submit whose update succeeded is the label the reload
leaves on a form whose label is the one held before. -/
theorem web_submit_label (f : SettingsPage) (post : Net Unit) (reload : Net Settings)
    (h : fetchJson post = .ok ()) :
    (Web.submit f post reload).nntpPassStatus
      = match fetchJson reload with
        | .ok settings => f.nntpPassStatus.map fun _ => passLabel settings
        | .error _ => f.nntpPassStatus := by
  unfold Web.submit Web.loadSettings
  simp only [h]
  cases fetchJson reload <;> rfl

theorem gui_submit_label (f : SettingsPage) (post : Net Unit) (reload : Net Settings)
    (h : fetchJson post = .ok ()) :
    (Gui.submit f post reload).nntpPassStatus
      = match fetchJson reload with
        | .ok settings => f.nntpPassStatus.map fun _ => passLabel settings
        | .error _ => f.nntpPassStatus := by
  unfold Gui.submit Gui.loadSettings
  simp only [h]
  cases fetchJson reload <;> rfl

/-- C12. Take two runs of the submit listener on forms that differ only in the
typed secret and the clear checkbox, both updates succeeding and both reloads
receiving the same answer. The password-status label is the same after both
runs, and when the reload returned a settings record it is the label of that
record's `NNTP_PASS_SET` ("Password stored" when truthy, "No password stored"
otherwise), on the plain page and on the prefixed page. -/
theorem label_independent_of_input (f : SettingsPage) (pass1 pass2 : String)
    (clear1 clear2 : Bool) (post1 post2 : Net Unit) (reload : Net Settings)
    (h1 : fetchJson post1 = .ok ()) (h2 : fetchJson post2 = .ok ()) :
    ((Web.submit { f with nntpPass := pass1, nntpPassClear := clear1 } post1 reload).nntpPassStatus
        = (Web.submit { f with nntpPass := pass2, nntpPassClear := clear2 } post2
            reload).nntpPassStatus
      ∧ (Gui.submit { f with nntpPass := pass1, nntpPassClear := clear1 } post1
            reload).nntpPassStatus
        = (Gui.submit { f with nntpPass := pass2, nntpPassClear := clear2 } post2
            reload).nntpPassStatus)
    ∧ (∀ settings, fetchJson reload = .ok settings →
        (Web.submit { f with nntpPass := pass1, nntpPassClear := clear1 } post1
            reload).nntpPassStatus
          = f.nntpPassStatus.map (fun _ =>
              if settings.NNTP_PASS_SET.truthy then "Password stored" else "No password stored")
        ∧ (Gui.submit { f with nntpPass := pass1, nntpPassClear := clear1 } post1
            reload).nntpPassStatus
          = f.nntpPassStatus.map (fun _ =>
              if settings.NNTP_PASS_SET.truthy then "Password stored"
              else "No password stored")) := by
  refine ⟨⟨?_, ?_⟩, ?_⟩
  · rw [web_submit_label _ post1 reload h1, web_submit_label _ post2 reload h2]
  · rw [gui_submit_label _ post1 reload h1, gui_submit_label _ post2 reload h2]
  · intro settings hs
    rw [web_submit_label _ post1 reload h1, gui_submit_label _ post1 reload h1]
    simp only [hs]
    exact ⟨rfl, rfl⟩

theorem label_independent_of_input_witness :
    (fetchJson (okResponse ()) = .ok ())
    ∧ (Web.submit { nntpPass := "hunter2", nntpPassClear := false } (okResponse ())
          (okResponse { NNTP_PASS_SET := .bool false })).nntpPassStatus
        = (Web.submit { nntpPass := "", nntpPassClear := true } (okResponse ())
          (okResponse { NNTP_PASS_SET := .bool false })).nntpPassStatus
    ∧ (Web.submit { nntpPass := "hunter2", nntpPassClear := false } (okResponse ())
          (okResponse { NNTP_PASS_SET := .bool false })).nntpPassStatus
        = some "No password stored" :=
  ⟨rfl,
   (label_independent_of_input {} "hunter2" "" false true (okResponse ()) (okResponse ())
      (okResponse { NNTP_PASS_SET := .bool false }) rfl rfl).1.1,
   ((label_independent_of_input {} "hunter2" "" false true (okResponse ()) (okResponse ())
      (okResponse { NNTP_PASS_SET := .bool false }) rfl rfl).2
      { NNTP_PASS_SET := .bool false } rfl).1⟩

/-! ## The pages partition the list -/

theorem pageSlice_succ {α : Type} (list : List α) (ps i : Nat) :
    pageSlice list ps (i + 1) = (list.take (i * ps + ps)).drop (i * ps) := by
  simp [pageSlice, jsSlice]

/-- The slices of the first `k` pages, in order, make up the first `k * ps`
items. -/
theorem pageSlices_concat {α : Type} (list : List α) (ps k : Nat) :
    (List.range k).flatMap (fun i => pageSlice list ps (i + 1)) = list.take (k * ps) := by
  induction k with
  | zero => simp
  | succ k ih =>
    rw [List.range_succ, List.flatMap_append, ih, List.flatMap_singleton, pageSlice_succ]
    have hle : k * ps ≤ k * ps + ps := Nat.le_add_right _ _
    have h1 : list.take (k * ps) = (list.take (k * ps + ps)).take (k * ps) := by
      rw [List.take_take, min_eq_left hle]
    have h2 : (k + 1) * ps = k * ps + ps := Nat.succ_mul k ps
    rw [h2]
    conv_lhs => rw [h1]
    exact List.take_append_drop _ _

theorem totalPages_mul_ge (n ps : Nat) (hps : 0 < ps) : n ≤ totalPages n ps * ps := by
  have h := ceilDiv_mul_ge n ps hps
  have h2 : ceilDiv n ps * ps ≤ totalPages n ps * ps :=
    Nat.mul_le_mul_right ps (le_max_left _ _)
  exact le_trans h h2

/-- The last page of a non-empty list starts before the end of the list. -/
theorem last_page_start_lt (n ps : Nat) (hps : 0 < ps) (hn : 0 < n) :
    (totalPages n ps - 1) * ps < n := by
  have hc : ceilDiv n ps * ps ≤ n + ps - 1 := by
    unfold ceilDiv
    exact Nat.div_mul_le_self _ _
  have hpos : 1 ≤ ceilDiv n ps := by
    unfold ceilDiv
    exact (Nat.one_le_div_iff hps).mpr (by omega)
  have htp : totalPages n ps = ceilDiv n ps := by
    unfold totalPages
    exact max_eq_left hpos
  rw [htp]
  obtain ⟨c, hc'⟩ : ∃ c, ceilDiv n ps = c + 1 := ⟨ceilDiv n ps - 1, by omega⟩
  rw [hc'] at hc ⊢
  rw [Nat.succ_mul] at hc
  simp only [Nat.add_sub_cancel]
  omega

theorem pageSlice_length_le {α : Type} (list : List α) (ps p : Nat) :
    (pageSlice list ps p).length ≤ ps := by
  simp only [pageSlice, jsSlice, List.length_drop, List.length_take]
  omega

theorem pageSlice_length_pos {α : Type} (list : List α) (ps p : Nat) (hps : 0 < ps)
    (hne : list ≠ []) (hp : p ≤ totalPages list.length ps) :
    0 < (pageSlice list ps p).length := by
  have hn : 0 < list.length := List.length_pos.mpr hne
  have hlast := last_page_start_lt list.length ps hps hn
  have hmono : (p - 1) * ps ≤ (totalPages list.length ps - 1) * ps :=
    Nat.mul_le_mul_right ps (Nat.sub_le_sub_right hp 1)
  simp only [pageSlice, jsSlice, List.length_drop, List.length_take]
  omega

/-- C14. On a page that has the elements of both collections and for positive
page sizes: at every page `p` in `[1, totalPages]`, `renderReleases` and
`renderNzbs` show the cards of the slice of page `p`; the slices of pages
1, 2, ..., `totalPages`, concatenated in order, are the whole list; every
slice has at most `pageSize` items; and when the list is not empty every page
in `[1, totalPages]` shows at least one item. -/
theorem pages_partition_list (s : State) (d : Page) (hd : d.complete)
    (hr : 0 < s.releasePageSize) (hn : 0 < s.nzbPageSize) (list : List Release)
    (nzbs : List Nzb) :
    ((∀ p, 1 ≤ p → p ≤ totalPages list.length s.releasePageSize →
        (renderReleases { s with releasePage := p } d list).2.releaseList
          = some ((pageSlice list s.releasePageSize p).map releaseCard))
      ∧ (List.range (totalPages list.length s.releasePageSize)).flatMap
          (fun i => pageSlice list s.releasePageSize (i + 1)) = list
      ∧ (∀ p, (pageSlice list s.releasePageSize p).length ≤ s.releasePageSize)
      ∧ (list ≠ [] → ∀ p, 1 ≤ p → p ≤ totalPages list.length s.releasePageSize →
          0 < (pageSlice list s.releasePageSize p).length))
    ∧ ((∀ p, 1 ≤ p → p ≤ totalPages nzbs.length s.nzbPageSize →
        (renderNzbs { s with nzbPage := p } d nzbs).2.nzbList
          = some ((pageSlice nzbs s.nzbPageSize p).map (nzbCard d.pathname)))
      ∧ (List.range (totalPages nzbs.length s.nzbPageSize)).flatMap
          (fun i => pageSlice nzbs s.nzbPageSize (i + 1)) = nzbs
      ∧ (∀ p, (pageSlice nzbs s.nzbPageSize p).length ≤ s.nzbPageSize)
      ∧ (nzbs ≠ [] → ∀ p, 1 ≤ p → p ≤ totalPages nzbs.length s.nzbPageSize →
          0 < (pageSlice nzbs s.nzbPageSize p).length)) := by
  refine ⟨⟨?_, ?_, ?_, ?_⟩, ⟨?_, ?_, ?_, ?_⟩⟩
  · intro p _ hle
    rw [renderReleases_eq _ d list hd.1]
    simp only [min_eq_left hle]
    rfl
  · rw [pageSlices_concat]
    exact List.take_of_length_le (totalPages_mul_ge _ _ hr)
  · intro p
    exact pageSlice_length_le list _ p
  · intro hne p _ hle
    exact pageSlice_length_pos list _ p hr hne hle
  · intro p _ hle
    rw [renderNzbs_eq _ d nzbs hd.2]
    simp only [min_eq_left hle]
    rfl
  · rw [pageSlices_concat]
    exact List.take_of_length_le (totalPages_mul_ge _ _ hn)
  · intro p
    exact pageSlice_length_le nzbs _ p
  · intro hne p _ hle
    exact pageSlice_length_pos nzbs _ p hn hne hle

theorem pages_partition_list_witness :
    (({} : Page).complete ∧ 0 < 20)
    ∧ (List.range (totalPages sampleReleases.length 20)).flatMap
        (fun i => pageSlice sampleReleases 20 (i + 1)) = sampleReleases
    ∧ (renderReleases { releasePage := 3 } {} sampleReleases).2.releaseList
        = some ((pageSlice sampleReleases 20 3).map releaseCard)
    ∧ 0 < (pageSlice sampleReleases 20 3).length :=
  ⟨⟨by decide, by decide⟩,
   (pages_partition_list {} {} (by decide) (by decide) (by decide) sampleReleases []).1.2.1,
   (pages_partition_list {} {} (by decide) (by decide) (by decide) sampleReleases []).1.1 3
      (by decide) (by decide),
   (pages_partition_list {} {} (by decide) (by decide) (by decide) sampleReleases []).1.2.2.2
      (by decide) 3 (by decide) (by decide)⟩

/-- The pages of 45 items at page size 20 hold 20, 20 and 5 items. -/
theorem scenario_45_slices :
    (pageSlice sampleReleases 20 1).length = 20
    ∧ (pageSlice sampleReleases 20 2).length = 20
    ∧ (pageSlice sampleReleases 20 3).length = 5
    ∧ pageSlice sampleReleases 20 1 ++ pageSlice sampleReleases 20 2
        ++ pageSlice sampleReleases 20 3 = sampleReleases := by
  decide

end TriceraPost
